import Mathlib

/-!
Verification of the issue-resolver resolution pipeline.

This file gives a shallow embedding, in Lean 4, of the decision logic of the
issue-resolver repository (src/issue_resolver), and proves properties of the
embedded code.  The embedding covers:

  * the Agent Result Parser (issue_resolver/claude/parser.py, parse_response);
  * the Analyzer JSON extraction and gate (issue_resolver/pipeline/analyzer.py);
  * the Resolver state machine (issue_resolver/pipeline/resolver.py,
    resolve_issue and its failed-test extraction helpers);
  * the Orchestrator loop (issue_resolver/pipeline/orchestrator.py,
    run_pipeline);
  * the issue upsert of the persistence layer
    (issue_resolver/db/repository.py together with the schema of
    issue_resolver/db/engine.py).

Modelling conventions.  Python values flowing out of json.loads are modelled
by the inductive type JVal.  Machine floats are modelled by rationals; none
of the proved properties depends on floating-point rounding.  External
effects (subprocess runs, git/gh operations, the agent CLI) are modelled as
oracles: a record field of type Except PyExc A stands for one call that
either returns a value of type A or raises.  Python exceptions are modelled
by the type PyExc; a function that can raise returns Except PyExc A.
Persistence is modelled as a pure trace of the records handed to the
repository, in order.  Wall-clock quantities (duration_ms, created_at,
updated_at) and logging are not modelled; no claim concerns them.
-/

namespace IssueResolver

/-- JSON values as produced by json.loads.  Numbers are modelled as
rationals; an obj holds its members as an association list with distinct
keys (json.loads returns a dict, keeping the last duplicate key). -/
inductive JVal where
  | null : JVal
  | bool (b : Bool) : JVal
  | num (q : ℚ) : JVal
  | str (s : String) : JVal
  | arr (xs : List JVal) : JVal
  | obj (fields : List (String × JVal)) : JVal

/-- Python exceptions that the modelled code can raise. -/
inductive PyExc where
  | attributeError : PyExc
  | typeError : PyExc
  | valueError (msg : String) : PyExc
  | timeoutExpired : PyExc
  | osError (msg : String) : PyExc
  | runtime (msg : String) : PyExc
deriving Repr, DecidableEq

/-- Lookup in a parsed JSON object, with a default: dict.get(key, default). -/
def jgetD : List (String × JVal) → String → JVal → JVal
  | [], _, d => d
  | (k, v) :: rest, key, d => if k = key then v else jgetD rest key d

/-- Python truthiness of a JSON value (bool(v)). -/
def pyTruthy : JVal → Bool
  | .null => false
  | .bool b => b
  | .num q => q ≠ 0
  | .str s => s ≠ ""
  | .arr xs => !xs.isEmpty
  | .obj fs => !fs.isEmpty

/-- Python comparison v > 0.  Numbers compare numerically, and bool is an
int subtype (True > 0 holds); every other operand raises TypeError. -/
def pyGt0 : JVal → Except PyExc Bool
  | .num q => .ok (decide (0 < q))
  | .bool b => .ok b
  | _ => .error .typeError

/-- Parsed result record from a Claude Code CLI invocation
(claude/parser.py, class ClaudeResult).  The dataclass fields hold whatever
json.loads produced, so the dynamic fields are JVal. -/
structure ClaudeResult where
  outcome : String
  result_text : JVal
  cost_usd : JVal
  duration_ms : JVal
  num_turns : JVal
  session_id : JVal
  is_error : JVal
  raw_stdout : String

/-- Embedding of claude/parser.py, parse_response.  The outcome of
json.loads(stdout) is passed in as stdoutParse (the oracle for the JSON
decoder applied to the concrete stdout text); .error models
json.JSONDecodeError.  A decoded value that is not a dict makes the
Python code call .get on a non-dict, raising AttributeError. -/
def parse_response (stdoutParse : Except Unit JVal) (stdout _stderr : String)
    (returncode : Int) (timeout_expired : Bool) : Except PyExc ClaudeResult :=
  if timeout_expired then
    .ok ⟨"timeout", .str "", .num 0, .num 0, .num 0, .str "", .bool true, stdout⟩
  else if returncode ≠ 0 then
    .ok ⟨"process_error", .str "", .num 0, .num 0, .num 0, .str "", .bool true, stdout⟩
  else
    match stdoutParse with
    | .error _ =>
      .ok ⟨"parse_error", .str "", .num 0, .num 0, .num 0, .str "", .bool true, stdout⟩
    | .ok (.obj fields) =>
      let cost := jgetD fields "cost_usd" (jgetD fields "total_cost_usd" (.num 0))
      let result_text := jgetD fields "result" (.str "")
      let is_error := jgetD fields "is_error" (.bool false)
      let duration_ms := jgetD fields "duration_ms" (.num 0)
      let num_turns := jgetD fields "num_turns" (.num 0)
      let session_id := jgetD fields "session_id" (.str "")
      if pyTruthy is_error then
        match pyGt0 cost with
        | .error e => .error e
        | .ok b =>
          .ok ⟨if b then "budget_exceeded" else "process_error",
               result_text, cost, duration_ms, num_turns, session_id, is_error, stdout⟩
      else
        .ok ⟨"success", result_text, cost, duration_ms, num_turns, session_id,
             is_error, stdout⟩
    | .ok _ => .error .attributeError

/-! ### Model of json.loads

The Analyzer extracts JSON out of free text by string manipulation, so the
JSON decoder itself must be modelled concretely.  The parser below follows
the JSON grammar accepted by Python's json.loads (objects, arrays, strings
with the standard escapes, numbers with fraction and exponent, true, false,
null); the non-standard extensions NaN and Infinity are not modelled, and
no claim touches them. -/

/-- Whitespace accepted between JSON tokens. -/
def isJsonWs (c : Char) : Bool :=
  c == ' ' || c == '\t' || c == '\n' || c == '\r'

/-- Drop leading JSON whitespace. -/
def skipWs : List Char → List Char
  | c :: cs => if isJsonWs c then skipWs cs else c :: cs
  | [] => []

/-- Python regex and str.strip whitespace. -/
def isPyWs (c : Char) : Bool :=
  c == ' ' || c == '\t' || c == '\n' || c == '\r' || c == '\x0b' || c == '\x0c'

/-- Python slicing s[:n]: the first n characters. -/
def strTake (s : String) (n : Nat) : String :=
  String.mk (s.toList.take n)

/-- Python str.strip(): drop leading and trailing whitespace. -/
def strTrim (s : String) : String :=
  String.mk (((s.toList.dropWhile isPyWs).reverse.dropWhile isPyWs).reverse)

/-- Split a leading run of decimal digits. -/
def takeDigits : List Char → List Char × List Char
  | c :: cs =>
    if c.isDigit then
      let (ds, rest) := takeDigits cs
      (c :: ds, rest)
    else ([], c :: cs)
  | [] => ([], [])

/-- Numeric value of a digit run. -/
def digitsVal (ds : List Char) : Nat :=
  ds.foldl (fun acc c => acc * 10 + (c.toNat - 48)) 0

/-- Apply a parsed exponent part to a number. -/
def expDigits (q : ℚ) (negE : Bool) (cs : List Char) : Option (ℚ × List Char) :=
  let (ds, rest) := takeDigits cs
  if ds.isEmpty then none
  else
    let e := digitsVal ds
    some (if negE then q / ((10 : ℚ) ^ e) else q * ((10 : ℚ) ^ e), rest)

/-- Parse an optional exponent suffix of a JSON number. -/
def applyExp (q : ℚ) : List Char → Option (ℚ × List Char)
  | 'e' :: '+' :: r => expDigits q false r
  | 'e' :: '-' :: r => expDigits q true r
  | 'e' :: r => expDigits q false r
  | 'E' :: '+' :: r => expDigits q false r
  | 'E' :: '-' :: r => expDigits q true r
  | 'E' :: r => expDigits q false r
  | cs => some (q, cs)

/-- Parse a JSON number (sign, integer part, optional fraction, optional
exponent). -/
def parseNum (cs : List Char) : Option (ℚ × List Char) :=
  let (neg, cs1) :=
    match cs with
    | '-' :: r => (true, r)
    | r => (false, r)
  let (ids, cs2) := takeDigits cs1
  if ids.isEmpty then none
  else
    let base : ℚ := (digitsVal ids : ℚ)
    let withFrac : Option (ℚ × List Char) :=
      match cs2 with
      | '.' :: r =>
        let (fds, r2) := takeDigits r
        if fds.isEmpty then none
        else some (base + (digitsVal fds : ℚ) / ((10 : ℚ) ^ fds.length), r2)
      | r => some (base, r)
    match withFrac with
    | none => none
    | some (q, cs3) =>
      match applyExp q cs3 with
      | none => none
      | some (q2, cs4) => some (if neg then -q2 else q2, cs4)

/-- Value of a hexadecimal digit, if any. -/
def hexVal (c : Char) : Option Nat :=
  let n := c.toNat
  if 48 ≤ n && n ≤ 57 then some (n - 48)
  else if 97 ≤ n && n ≤ 102 then some (n - 87)
  else if 65 ≤ n && n ≤ 70 then some (n - 55)
  else none

/-- Decode one escape sequence after a backslash inside a JSON string. -/
def escChar (e : Char) (rest : List Char) : Option (Char × List Char) :=
  if e == '"' then some ('"', rest)
  else if e == '\\' then some ('\\', rest)
  else if e == '/' then some ('/', rest)
  else if e == 'b' then some ('\x08', rest)
  else if e == 'f' then some ('\x0c', rest)
  else if e == 'n' then some ('\n', rest)
  else if e == 'r' then some ('\r', rest)
  else if e == 't' then some ('\t', rest)
  else if e == 'u' then
    match rest with
    | h1 :: h2 :: h3 :: h4 :: r =>
      match hexVal h1, hexVal h2, hexVal h3, hexVal h4 with
      | some a, some b, some c, some d =>
        some (Char.ofNat (((a * 16 + b) * 16 + c) * 16 + d), r)
      | _, _, _, _ => none
    | _ => none
  else none

/-- Parse the body of a JSON string after the opening quote; fuel bounds the
recursion by the remaining input length. -/
def parseStrChars : Nat → List Char → Option (List Char × List Char)
  | 0, _ => none
  | _, [] => none
  | fuel + 1, c :: rest =>
    if c == '"' then some ([], rest)
    else if c == '\\' then
      match rest with
      | [] => none
      | e :: rest1 =>
        match escChar e rest1 with
        | none => none
        | some (ch, rest2) =>
          match parseStrChars fuel rest2 with
          | none => none
          | some (cs, rest3) => some (ch :: cs, rest3)
    else
      match parseStrChars fuel rest with
      | none => none
      | some (cs, rest2) => some (c :: cs, rest2)

/-- Insert a member into a parsed object the way a Python dict does: an
existing key keeps its position and gets the new value. -/
def dictInsert : List (String × JVal) → String → JVal → List (String × JVal)
  | [], k, v => [(k, v)]
  | (k0, v0) :: rest, k, v =>
    if k0 = k then (k0, v) :: rest else (k0, v0) :: dictInsert rest k v

mutual

/-- Parse one JSON value; fuel bounds the nesting depth by the input
length. -/
def parseJ : Nat → List Char → Option (JVal × List Char)
  | 0, _ => none
  | fuel + 1, cs =>
    match skipWs cs with
    | [] => none
    | 'n' :: 'u' :: 'l' :: 'l' :: rest => some (.null, rest)
    | 't' :: 'r' :: 'u' :: 'e' :: rest => some (.bool true, rest)
    | 'f' :: 'a' :: 'l' :: 's' :: 'e' :: rest => some (.bool false, rest)
    | '"' :: rest =>
      match parseStrChars (rest.length + 1) rest with
      | none => none
      | some (scs, rest2) => some (.str (String.mk scs), rest2)
    | '[' :: rest =>
      match skipWs rest with
      | ']' :: rest2 => some (.arr [], rest2)
      | _ =>
        match parseItems fuel rest with
        | none => none
        | some (xs, rest2) => some (.arr xs, rest2)
    | '{' :: rest =>
      match skipWs rest with
      | '}' :: rest2 => some (.obj [], rest2)
      | _ =>
        match parseMembers fuel rest [] with
        | none => none
        | some (fs, rest2) => some (.obj fs, rest2)
    | other =>
      match parseNum other with
      | none => none
      | some (q, rest) => some (.num q, rest)

/-- Parse the comma-separated items of a non-empty JSON array up to the
closing bracket. -/
def parseItems : Nat → List Char → Option (List JVal × List Char)
  | 0, _ => none
  | fuel + 1, cs =>
    match parseJ fuel cs with
    | none => none
    | some (v, rest) =>
      match skipWs rest with
      | ',' :: rest2 =>
        match parseItems fuel rest2 with
        | none => none
        | some (vs, rest3) => some (v :: vs, rest3)
      | ']' :: rest2 => some ([v], rest2)
      | _ => none

/-- Parse the members of a non-empty JSON object up to the closing brace,
accumulating a dict. -/
def parseMembers : Nat → List Char → List (String × JVal) →
    Option (List (String × JVal) × List Char)
  | 0, _, _ => none
  | fuel + 1, cs, acc =>
    match skipWs cs with
    | '"' :: rest =>
      match parseStrChars (rest.length + 1) rest with
      | none => none
      | some (kcs, rest2) =>
        match skipWs rest2 with
        | ':' :: rest3 =>
          match parseJ fuel rest3 with
          | none => none
          | some (v, rest4) =>
            let acc2 := dictInsert acc (String.mk kcs) v
            match skipWs rest4 with
            | ',' :: rest5 => parseMembers fuel rest5 acc2
            | '}' :: rest5 => some (acc2, rest5)
            | _ => none
        | _ => none
    | _ => none

end

/-- Model of json.loads: the whole text must be one JSON value, possibly
surrounded by whitespace; none models json.JSONDecodeError. -/
def jsonLoads (s : String) : Option JVal :=
  match parseJ (s.length + 1) s.toList with
  | none => none
  | some (v, rest) => if (skipWs rest).isEmpty then some v else none

/-! ### Analyzer JSON extraction (pipeline/analyzer.py, _extract_json) -/

/-- First index at which sub occurs in the list, if any. -/
def findSubIdx (sub : List Char) : List Char → Option Nat
  | [] => if sub.isEmpty then some 0 else none
  | c :: rest =>
    if sub.isPrefixOf (c :: rest) then some 0
    else
      match findSubIdx sub rest with
      | none => none
      | some i => some (i + 1)

/-- First index satisfying a predicate. -/
def firstIdx (p : Char → Bool) : List Char → Option Nat
  | [] => none
  | c :: rest =>
    if p c then some 0
    else
      match firstIdx p rest with
      | none => none
      | some i => some (i + 1)

/-- Last index satisfying a predicate. -/
def lastIdx (p : Char → Bool) (cs : List Char) : Option Nat :=
  match firstIdx p cs.reverse with
  | none => none
  | some i => some (cs.length - 1 - i)

/-- Step 2 of _extract_json: the first markdown code fence.  Models the
regex search for a pair of triple-backtick fences with an optional json
tag; the captured body is stripped by the caller, which the final trim
reproduces. -/
def extractFence (text : List Char) : Option String :=
  match findSubIdx ['`', '`', '`'] text with
  | none => none
  | some i =>
    let after := text.drop (i + 3)
    let after2 := if ['j', 's', 'o', 'n'].isPrefixOf after then after.drop 4 else after
    match findSubIdx ['`', '`', '`'] after2 with
    | none => none
    | some j => some (strTrim (String.mk (after2.take j)))

/-- Step 3 of _extract_json: the greedy regex over the whole text with
DOTALL takes everything from the first opening brace to the last closing
brace. -/
def braceSubstring (text : List Char) : Option String :=
  match firstIdx (· == '{') text with
  | none => none
  | some i =>
    match lastIdx (· == '}') text with
    | none => none
    | some j => if i < j then some (String.mk ((text.take (j + 1)).drop i)) else none

/-- Step 1 of _extract_json: direct parse of the whole text, accepted only
when it decodes to a JSON object. -/
def directStep (text : String) : Option (List (String × JVal)) :=
  match jsonLoads text with
  | some (.obj fs) => some fs
  | _ => none

/-- Step 2 of _extract_json: parse of the first fenced code block, accepted
only when it decodes to a JSON object. -/
def fenceStep (text : String) : Option (List (String × JVal)) :=
  match extractFence text.toList with
  | none => none
  | some code =>
    match jsonLoads code with
    | some (.obj fs) => some fs
    | _ => none

/-- Step 3 of _extract_json: parse of the first-to-last brace substring,
accepted only when it decodes to a JSON object. -/
def braceStep (text : String) : Option (List (String × JVal)) :=
  match braceSubstring text.toList with
  | none => none
  | some sub =>
    match jsonLoads sub with
    | some (.obj fs) => some fs
    | _ => none

/-- Embedding of pipeline/analyzer.py, _extract_json: direct parse, then
fenced code block, then first-to-last brace substring; the first candidate
that decodes to a JSON object wins, and None signals that none did. -/
def _extract_json (text : String) : Option (List (String × JVal)) :=
  match directStep text with
  | some fs => some fs
  | none =>
    match fenceStep text with
    | some fs => some fs
    | none => braceStep text

/-! ### Python sets of test identifiers

Python sets of strings are modelled canonically as strictly sorted lists,
so that set difference, subset, and the sorted() call of the error message
are all directly computable. -/

/-- Insert into a strictly sorted list without duplicates. -/
def setInsert (s : String) : List String → List String
  | [] => [s]
  | x :: xs =>
    if s = x then x :: xs
    else if s < x then s :: x :: xs
    else x :: setInsert s xs

/-- The set of the elements of a list, as a strictly sorted list. -/
def setOf (l : List String) : List String :=
  l.foldl (fun acc s => setInsert s acc) []

/-- Set difference a - b. -/
def setDiff (a b : List String) : List String :=
  a.filter (fun s => !(b.contains s))

/-- Subset-or-equal test a <= b on sets. -/
def setSubset (a b : List String) : Bool :=
  a.all b.contains

/-! ### Failed-test extraction (pipeline/resolver.py, _extract_failed_tests)

Each runner branch is a regex scan over the captured output; the scans are
modelled directly on character lists with the usual leftmost,
non-overlapping finditer semantics. -/

/-- Consume a literal, if present. -/
def matchLit (lit : List Char) (cs : List Char) : Option (List Char) :=
  if lit.isPrefixOf cs then some (cs.drop lit.length) else none

/-- Consume at least one whitespace character, returning the consumed run
and the rest. -/
def wsPlus (cs : List Char) : Option (List Char × List Char) :=
  let (ws, rest) := cs.span isPyWs
  if ws.isEmpty then none else some (ws, rest)

/-- Consume at least one non-whitespace character (the regex atom of
one-or-more non-space), returning the token and the rest. -/
def tokenPlus (cs : List Char) : Option (List Char × List Char) :=
  let (tok, rest) := cs.span (fun c => !isPyWs c)
  if tok.isEmpty then none else some (tok, rest)

/-- Drop trailing characters satisfying a predicate (str.rstrip). -/
def dropTrailing (p : Char → Bool) (s : List Char) : List Char :=
  (s.reverse.dropWhile p).reverse

/-- Collect all non-overlapping matches of a scanner over the input,
advancing one character on failure (finditer). -/
def scanMatches {α : Type} (tryMatch : List Char → Option (α × List Char)) :
    Nat → List Char → List α
  | 0, _ => []
  | _, [] => []
  | fuel + 1, c :: rest =>
    match tryMatch (c :: rest) with
    | some (tok, after) => tok :: scanMatches tryMatch fuel after
    | none => scanMatches tryMatch fuel rest

/-- One pytest or unittest failure line: the word FAILED, whitespace, then a
test identifier, with trailing space or dash characters stripped. -/
def pytestMatch (cs : List Char) : Option (String × List Char) :=
  match matchLit "FAILED".toList cs with
  | none => none
  | some r1 =>
    match wsPlus r1 with
    | none => none
    | some (_, r2) =>
      match tokenPlus r2 with
      | none => none
      | some (tok, rest) =>
        some (String.mk (dropTrailing (fun c => c == ' ' || c == '-') tok), rest)

/-- One npm failure line: the word FAIL, whitespace, then a path token. -/
def npmMatch (cs : List Char) : Option (String × List Char) :=
  match matchLit "FAIL".toList cs with
  | none => none
  | some r1 =>
    match wsPlus r1 with
    | none => none
    | some (_, r2) =>
      match tokenPlus r2 with
      | none => none
      | some (tok, rest) => some (String.mk tok, rest)

/-- One cargo failure header: four dashes, the test name, the word stdout,
four dashes. -/
def cargoMatch (cs : List Char) : Option (String × List Char) :=
  match matchLit "----".toList cs with
  | none => none
  | some r1 =>
    match wsPlus r1 with
    | none => none
    | some (_, r2) =>
      match tokenPlus r2 with
      | none => none
      | some (tok, r3) =>
        match wsPlus r3 with
        | none => none
        | some (_, r4) =>
          match matchLit "stdout".toList r4 with
          | none => none
          | some r5 =>
            match wsPlus r5 with
            | none => none
            | some (_, r6) =>
              match matchLit "----".toList r6 with
              | none => none
              | some rest => some (String.mk tok, rest)

/-- One go failure line: three dashes, whitespace, the word FAIL with a
colon, whitespace, the test name. -/
def goMatch (cs : List Char) : Option (String × List Char) :=
  match matchLit "---".toList cs with
  | none => none
  | some r1 =>
    match wsPlus r1 with
    | none => none
    | some (_, r2) =>
      match matchLit "FAIL:".toList r2 with
      | none => none
      | some r3 =>
        match wsPlus r3 with
        | none => none
        | some (_, r4) =>
          match tokenPlus r4 with
          | none => none
          | some (tok, rest) => some (String.mk tok, rest)

/-- One generic summary match: a digit run, whitespace, the word failure
with an optional plural s.  Returns the counted value and the whole matched
text (regex group zero). -/
def countFailuresMatch (cs : List Char) : Option ((Nat × String) × List Char) :=
  let (ds, r1) := cs.span Char.isDigit
  if ds.isEmpty then none
  else
    match wsPlus r1 with
    | none => none
    | some (ws, r2) =>
      match matchLit "failure".toList r2 with
      | none => none
      | some r3 =>
        let (plural, rest) :=
          match r3 with
          | 's' :: r => (['s'], r)
          | r => ([], r)
        some ((digitsVal ds,
               String.mk (ds ++ ws ++ "failure".toList ++ plural)), rest)

/-- Embedding of pipeline/resolver.py, _extract_failed_tests. -/
def _extract_failed_tests (output : String) (runner_name : String) : List String :=
  let cs := output.toList
  if runner_name = "pytest" ∨ runner_name = "unittest" then
    setOf (scanMatches pytestMatch (cs.length + 1) cs)
  else if runner_name = "npm" then
    setOf (scanMatches npmMatch (cs.length + 1) cs)
  else if runner_name = "cargo" then
    setOf (scanMatches cargoMatch (cs.length + 1) cs)
  else if runner_name = "go" then
    setOf (scanMatches goMatch (cs.length + 1) cs)
  else if runner_name = "rspec" ∨ runner_name = "maven" ∨ runner_name = "gradle" then
    setOf ((scanMatches countFailuresMatch (cs.length + 1) cs).filterMap
      (fun m => if 0 < m.1 then some ("_unknown_failure_" ++ m.2) else none))
  else []

/-! ### Resolver state machine (pipeline/resolver.py, resolve_issue) -/

/-- Attempt status (models/enums.py, AttemptStatus). -/
inductive AttemptStatus where
  | pending
  | in_progress
  | succeeded
  | failed
deriving Repr, DecidableEq

/-- Attempt outcome taxonomy (models/enums.py, OutcomeCategory). -/
inductive OutcomeCategory where
  | pr_submitted
  | tests_failed
  | empty_diff
  | resolution_failed
  | analysis_failed
  | budget_exceeded
  | timeout
  | parse_error
  | stale_issue
  | untested
deriving Repr, DecidableEq

/-- Attempt record (models/attempt.py).  Only the fields the pipeline
reads or writes are modelled; cost_usd and num_turns are plain attribute
assignments of decoded JSON values in the source, so they hold JVal.
Wall-clock fields (duration_ms, created_at, updated_at) and the id are not
modelled. -/
structure Attempt where
  issue_id : String
  status : AttemptStatus
  outcome : Option OutcomeCategory := none
  cost_usd : Option JVal := none
  workspace_path : Option String := none
  branch_name : Option String := none
  num_turns : Option JVal := none
  model : Option String := none
  test_output : Option String := none
  diff_summary : Option String := none

/-- One repository call on the attempts store, with the record as
serialized at call time (db/repository.py, insert_attempt and
update_attempt). -/
inductive DbOp where
  | insert (a : Attempt)
  | update (a : Attempt)

/-- The attempt snapshot a repository call persisted. -/
def DbOp.snapshot : DbOp → Attempt
  | .insert a => a
  | .update a => a

/-- Issue record, reduced to the fields resolve_issue reads. -/
structure Issue where
  id : String
  repo_owner : String
  repo_name : String
  number : Int

/-- Configuration, reduced to the field resolve_issue stores on the
attempt. -/
structure AppConfig where
  model : String

/-- Result of one subprocess run (utils/subprocess_utils.py,
run_with_timeout when it returns). -/
structure RunResult where
  stdout : String
  stderr : String
  returncode : Int

/-- Detected install command (workspace/project_detector.py). -/
structure Installer where
  command : String

/-- Detected test runner (workspace/project_detector.py,
DetectedTestRunner). -/
structure DetectedTestRunner where
  command : String
  runner_name : String

/-- Raw outcome of one agent CLI invocation (claude/invoker.py, invoke):
the returned tuple, together with the oracle for json.loads applied to its
stdout. -/
structure InvokeResult where
  stdoutParse : Except Unit JVal
  stdout : String
  stderr : String
  returncode : Int
  timeout_expired : Bool

/-- Oracles for every external call resolve_issue makes, in program order.
Each field stands for one call site: .error means that call raised. -/
structure ResolveEnv where
  fork_repo : Except PyExc String
  create_workspace : Except PyExc String
  clone_repo : Except PyExc Unit
  create_branch : Except PyExc Unit
  detect_install : Except PyExc (Option Installer)
  install_run : Except PyExc RunResult
  detect_runner : Except PyExc (Option DetectedTestRunner)
  read_contributing : Except PyExc (Option String)
  read_template : Except PyExc (Option String)
  baseline_run : Except PyExc RunResult
  invoke : Except PyExc InvokeResult
  has_changes : Except PyExc Bool
  diff_summary : Except PyExc String
  post_run : Except PyExc RunResult

/-- Exceptions resolve_issue can let out of its try block: the two
distinguished errors, or any other Python exception.  budgetExceeded
carries the cost its message interpolates; float formatting of the message
text is not modelled. -/
inductive ResolveExc where
  | budgetExceeded (cost : JVal)
  | testsFailed (msg : String)
  | pyExc (e : PyExc)

/-- Message of the regression TestsFailedError: count, then the first five
identifiers in sorted order. -/
def newRegressionsMsg (new : List String) : String :=
  "New test regressions (" ++ toString new.length ++ "): " ++
    String.intercalate ", " (new.take 5)

/-- Message of the fallback TestsFailedError: the first 500 characters of
the post-fix test output. -/
def testsFailedFallbackMsg (post_output : String) : String :=
  "Tests failed. Output: " ++ strTake post_output 500

/-- Embedding of resolver.py, _run_tests: run the command, keep the first
5000 characters of combined output, extract the failing identifiers. -/
def _run_tests (tr : DetectedTestRunner) (run : RunResult) :
    Int × String × List String :=
  let raw := strTake (run.stdout ++ run.stderr) 5000
  (run.returncode, raw, _extract_failed_tests raw tr.runner_name)

/-- The Attempt constructed at the top of resolve_issue (lines 118 to 123):
status in_progress, fix branch name, configured model. -/
def initialAttempt (issue : Issue) (config : AppConfig) : Attempt :=
  { issue_id := issue.id
    status := .in_progress
    branch_name := some ("fix/issue-" ++ toString issue.number)
    model := some config.model }

/-- Step 2 of the body: run the detected install command, tolerating a
non-zero exit (only the raising of run_with_timeout matters). -/
def install_step (installer : Option Installer) (env : ResolveEnv) :
    Except PyExc Unit :=
  match installer with
  | some _ => env.install_run.map fun _ => ()
  | none => .ok ()

/-- Step 4 of the body: the baseline test run, returning exit code and
extracted failing identifiers; without a test runner the baseline is the
initialized pair of exit code zero and no failures. -/
def baseline_step (test_runner : Option DetectedTestRunner) (env : ResolveEnv) :
    Except PyExc (Int × List String) :=
  match test_runner with
  | some tr =>
    match env.baseline_run with
    | .error e => .error e
    | .ok run =>
      let (rc, _raw, fails) := _run_tests tr run
      .ok (rc, fails)
  | none => .ok (0, [])

/-- The post-fix classification of steps 6 and 7 of resolve_issue (lines
241 to 327): diff verification, post-fix test run, and comparison against
the baseline.  The arguments are the live state at that point: the trace
of the block so far and the current attempt. -/
def resolve_diff_and_tests (env : ResolveEnv)
    (test_runner : Option DetectedTestRunner)
    (baseline_returncode : Int) (baseline_failures : List String)
    (t1 : List DbOp) (a2 : Attempt) :
    List DbOp × Except (ResolveExc × Attempt) Attempt :=
  match env.has_changes with
  | .error e => (t1, .error (.pyExc e, a2))
  | .ok false =>
    let a3 := { a2 with status := .failed, outcome := some .empty_diff }
    (t1 ++ [.update a3], .ok a3)
  | .ok true =>
  match env.diff_summary with
  | .error e => (t1, .error (.pyExc e, a2))
  | .ok ds =>
  let a3 := { a2 with diff_summary := some ds }
  match test_runner with
  | none =>
    let a4 := { a3 with status := .succeeded, outcome := some .untested }
    (t1 ++ [.update a4], .ok a4)
  | some tr =>
  match env.post_run with
  | .error e => (t1, .error (.pyExc e, a3))
  | .ok run =>
  let (post_returncode, post_output, post_failures) := _run_tests tr run
  let a4 := { a3 with test_output := some post_output }
  if post_returncode = 0 then
    let a5 := { a4 with status := .succeeded, outcome := some .pr_submitted }
    (t1 ++ [.update a5], .ok a5)
  else if tr.runner_name = "pytest" ∧ post_returncode = 5 then
    let a5 := { a4 with status := .succeeded, outcome := some .untested }
    (t1 ++ [.update a5], .ok a5)
  else
    let new_failures := setDiff post_failures baseline_failures
    if new_failures ≠ [] then
      let a5 := { a4 with status := .failed, outcome := some .tests_failed }
      (t1 ++ [.update a5],
       .error (.testsFailed (newRegressionsMsg new_failures), a5))
    else if post_failures = [] ∧ baseline_returncode ≠ 0 then
      let a5 := { a4 with status := .succeeded, outcome := some .pr_submitted }
      (t1 ++ [.update a5], .ok a5)
    else if post_failures ≠ [] ∧ setSubset post_failures baseline_failures then
      let a5 := { a4 with status := .succeeded, outcome := some .pr_submitted }
      (t1 ++ [.update a5], .ok a5)
    else
      let a5 := { a4 with status := .failed, outcome := some .tests_failed }
      (t1 ++ [.update a5],
       .error (.testsFailed (testsFailedFallbackMsg post_output), a5))

/-- Step 5 outcome handling of resolve_issue (lines 214 to 239): record
cost and turns on the attempt, then route the parsed agent outcome; the
success path falls through to the diff and test stages. -/
def resolve_agent_outcome (env : ResolveEnv)
    (test_runner : Option DetectedTestRunner)
    (baseline_returncode : Int) (baseline_failures : List String)
    (claude_result : ClaudeResult) (t1 : List DbOp) (a1 : Attempt) :
    List DbOp × Except (ResolveExc × Attempt) Attempt :=
  let a2 := { a1 with cost_usd := some claude_result.cost_usd
                      num_turns := some claude_result.num_turns }
  if claude_result.outcome = "timeout" then
    let a3 := { a2 with status := .failed, outcome := some .timeout }
    (t1 ++ [.update a3], .ok a3)
  else if claude_result.outcome = "budget_exceeded" then
    let a3 := { a2 with status := .failed, outcome := some .budget_exceeded }
    (t1 ++ [.update a3], .error (.budgetExceeded claude_result.cost_usd, a3))
  else if claude_result.outcome = "process_error" then
    -- OutcomeCategory (models/enums.py) has no process_error member, so the
    -- coercion at resolver.py line 236 raises ValueError after the status
    -- assignment of line 235 and before any update; the catch-all handler
    -- then turns this attempt into resolution_failed.
    let a3 := { a2 with status := .failed }
    (t1, .error (.pyExc (.valueError "not a valid OutcomeCategory"), a3))
  else if claude_result.outcome = "parse_error" then
    let a3 := { a2 with status := .failed, outcome := some .parse_error }
    (t1 ++ [.update a3], .ok a3)
  else
    resolve_diff_and_tests env test_runner baseline_returncode baseline_failures t1 a2

/-- The body of the try block of resolve_issue (lines 135 to 327),
returning the persistence trace of the block together with either the
returned attempt or the exception leaving the block; an exception carries
the attempt state at raise time, which the enclosing handler mutates. -/
def resolve_issue_body (env : ResolveEnv) (a0 : Attempt) :
    List DbOp × Except (ResolveExc × Attempt) Attempt :=
  match env.fork_repo with
  | .error e => ([], .error (.pyExc e, a0))
  | .ok _fork_name =>
  match env.create_workspace with
  | .error e => ([], .error (.pyExc e, a0))
  | .ok wpath =>
  let a1 := { a0 with workspace_path := some wpath }
  let t1 : List DbOp := [.update a1]
  match env.clone_repo with
  | .error e => (t1, .error (.pyExc e, a1))
  | .ok _ =>
  match env.create_branch with
  | .error e => (t1, .error (.pyExc e, a1))
  | .ok _ =>
  match env.detect_install with
  | .error e => (t1, .error (.pyExc e, a1))
  | .ok installer =>
  match install_step installer env with
  | .error e => (t1, .error (.pyExc e, a1))
  | .ok _ =>
  match env.detect_runner with
  | .error e => (t1, .error (.pyExc e, a1))
  | .ok test_runner =>
  match env.read_contributing with
  | .error e => (t1, .error (.pyExc e, a1))
  | .ok _contributing =>
  match env.read_template with
  | .error e => (t1, .error (.pyExc e, a1))
  | .ok _template =>
  match baseline_step test_runner env with
  | .error e => (t1, .error (.pyExc e, a1))
  | .ok (baseline_returncode, baseline_failures) =>
  match env.invoke with
  | .error e => (t1, .error (.pyExc e, a1))
  | .ok iv =>
  match parse_response iv.stdoutParse iv.stdout iv.stderr iv.returncode
      iv.timeout_expired with
  | .error e => (t1, .error (.pyExc e, a1))
  | .ok claude_result =>
  resolve_agent_outcome env test_runner baseline_returncode baseline_failures
    claude_result t1 a1

/-- Embedding of pipeline/resolver.py, resolve_issue: create and insert the
attempt, short-circuit on dry run, run the body, and convert every
exception other than the two distinguished errors into a returned attempt
with outcome resolution_failed (lines 329 to 337). -/
def resolve_issue (issue : Issue) (config : AppConfig) (env : ResolveEnv)
    (dry_run : Bool) : List DbOp × Except ResolveExc Attempt :=
  let attempt := initialAttempt issue config
  let t0 : List DbOp := [.insert attempt]
  if dry_run then
    let a1 := { attempt with
                status := .succeeded
                outcome := some .pr_submitted
                cost_usd := some (.num 0)
                diff_summary := some "[DRY RUN] Would implement fix and run tests" }
    (t0 ++ [.update a1], .ok a1)
  else
    match resolve_issue_body env attempt with
    | (t, .ok a) => (t0 ++ t, .ok a)
    | (t, .error (.pyExc _e, aerr)) =>
      let a2 := { aerr with status := .failed, outcome := some .resolution_failed }
      (t0 ++ t ++ [.update a2], .ok a2)
    | (t, .error (.budgetExceeded c, _)) => (t0 ++ t, .error (.budgetExceeded c))
    | (t, .error (.testsFailed m, _)) => (t0 ++ t, .error (.testsFailed m))

/-! ### Analyzer gate (pipeline/analyzer.py, analyze_issue) -/

/-- Solvability ratings (models/enums.py, SolvabilityRating). -/
inductive SolvabilityRating where
  | solvable
  | likely_solvable
  | unlikely_solvable
  | unsolvable
  | needs_context
deriving Repr, DecidableEq

/-- String members of the SolvabilityRating StrEnum. -/
def SolvabilityRating.ofString? : String → Option SolvabilityRating
  | "solvable" => some .solvable
  | "likely_solvable" => some .likely_solvable
  | "unlikely_solvable" => some .unlikely_solvable
  | "unsolvable" => some .unsolvable
  | "needs_context" => some .needs_context
  | _ => none

/-- Value of a SolvabilityRating member. -/
def SolvabilityRating.toStr : SolvabilityRating → String
  | .solvable => "solvable"
  | .likely_solvable => "likely_solvable"
  | .unlikely_solvable => "unlikely_solvable"
  | .unsolvable => "unsolvable"
  | .needs_context => "needs_context"

/-- Value of an OutcomeCategory member. -/
def OutcomeCategory.toStr : OutcomeCategory → String
  | .pr_submitted => "pr_submitted"
  | .tests_failed => "tests_failed"
  | .empty_diff => "empty_diff"
  | .resolution_failed => "resolution_failed"
  | .analysis_failed => "analysis_failed"
  | .budget_exceeded => "budget_exceeded"
  | .timeout => "timeout"
  | .parse_error => "parse_error"
  | .stale_issue => "stale_issue"
  | .untested => "untested"

/-- Analysis record (models/analysis.py), after pydantic validation.
Wall-clock fields and the id are not modelled. -/
structure Analysis where
  issue_id : String
  rating : SolvabilityRating
  confidence : ℚ
  complexity : Option String := none
  reasoning : String
  cost_usd : Option ℚ := none
  model : Option String := none

/-- The solvability gate (models/analysis.py, passes_threshold). -/
def Analysis.passes_threshold (a : Analysis) : Bool :=
  (a.rating == .solvable || a.rating == .likely_solvable)
    && decide ((7 : ℚ) / 10 ≤ a.confidence)

/-- Conversion of a decoded JSON value into the SolvabilityRating StrEnum:
a non-member value makes the StrEnum call raise ValueError. -/
def solvabilityOfJVal : JVal → Except PyExc SolvabilityRating
  | .str s =>
    match SolvabilityRating.ofString? s with
    | some r => .ok r
    | none => .error (.valueError "not a valid SolvabilityRating")
  | _ => .error (.valueError "not a valid SolvabilityRating")

/-- Python float(x) on a decoded JSON value: numbers and bools convert,
everything else raises.  Numeric strings, which float would accept, are
modelled as raising; no claim involves them. -/
def pyFloat : JVal → Except PyExc ℚ
  | .num q => .ok q
  | .bool b => .ok (if b then 1 else 0)
  | _ => .error .typeError

/-- Pydantic validation of a float-or-none field from a decoded JSON
value.  Numeric strings, which pydantic would coerce, are modelled as
failing; no claim involves them. -/
def pyFloatOpt : JVal → Except PyExc (Option ℚ)
  | .num q => .ok (some q)
  | .bool b => .ok (some (if b then 1 else 0))
  | .null => .ok none
  | _ => .error (.valueError "float expected")

/-- Pydantic validation of a str-or-none field. -/
def pyStrOpt : JVal → Except PyExc (Option String)
  | .str s => .ok (some s)
  | .null => .ok none
  | _ => .error (.valueError "str expected")

/-- Pydantic validation of a str field. -/
def pyStr : JVal → Except PyExc String
  | .str s => .ok s
  | _ => .error (.valueError "str expected")

/-- Exceptions leaving analyze_issue: the distinguished rejection signal
(utils/exceptions.py, AnalysisRejectedError) carrying rating, confidence
and reasoning; the agent-error signal (ClaudeError); or any other Python
exception, which analyze_issue does not catch. -/
inductive AnalyzeExc where
  | rejected (rating : SolvabilityRating) (confidence : ℚ) (reasoning : String)
  | claudeErr (msg : String)
  | pyExc (e : PyExc)

/-- Oracle for the one external call analyze_issue makes. -/
structure AnalyzeEnv where
  invoke : Except PyExc InvokeResult

/-- Embedding of pipeline/analyzer.py, analyze_issue.  Returns the trace of
analyses handed to insert_analysis together with the returned analysis or
the exception leaving the function. -/
def analyze_issue (issue : Issue) (env : AnalyzeEnv) (dry_run : Bool) :
    List Analysis × Except AnalyzeExc Analysis :=
  if dry_run then
    let a : Analysis :=
      { issue_id := issue.id
        rating := .likely_solvable
        confidence := 3 / 4
        complexity := some "medium"
        reasoning := "[DRY RUN] Analysis skipped — would invoke AI agent for solvability assessment."
        cost_usd := some 0
        model := some "haiku" }
    ([a], .ok a)
  else
    match env.invoke with
    | .error e => ([], .error (.pyExc e))
    | .ok iv =>
    match parse_response iv.stdoutParse iv.stdout iv.stderr iv.returncode
        iv.timeout_expired with
    | .error e => ([], .error (.pyExc e))
    | .ok claude_result =>
    if claude_result.outcome ≠ "success" then
      match pyFloatOpt claude_result.cost_usd with
      | .error e => ([], .error (.pyExc e))
      | .ok cost =>
        let a : Analysis :=
          { issue_id := issue.id
            rating := .unsolvable
            confidence := 0
            reasoning := "Analysis failed: " ++ claude_result.outcome
            cost_usd := cost
            model := some "haiku" }
        ([a], .error (.claudeErr ("Analysis failed with outcome: " ++ claude_result.outcome)))
    else
      -- _extract_json expects text; a non-string result field makes
      -- json.loads and re.search raise TypeError, which is not caught.
      match claude_result.result_text with
      | .str text =>
        match _extract_json text with
        | none =>
          match pyFloatOpt claude_result.cost_usd with
          | .error e => ([], .error (.pyExc e))
          | .ok cost =>
            let a : Analysis :=
              { issue_id := issue.id
                rating := .unsolvable
                confidence := 0
                reasoning := "Failed to parse analysis JSON: " ++ strTake text 200
                cost_usd := cost
                model := some "haiku" }
            ([a], .error (.claudeErr "Analysis returned invalid JSON"))
        | some analysis_data =>
          match solvabilityOfJVal (jgetD analysis_data "rating" (.str "unsolvable")) with
          | .error e => ([], .error (.pyExc e))
          | .ok rating =>
          match pyFloat (jgetD analysis_data "confidence" (.num 0)) with
          | .error e => ([], .error (.pyExc e))
          | .ok confidence =>
          -- pydantic validator on Analysis.confidence
          if ¬ (0 ≤ confidence ∧ confidence ≤ 1) then
            ([], .error (.pyExc (.valueError "confidence must be between 0.0 and 1.0")))
          else
          match pyStrOpt (jgetD analysis_data "complexity" .null) with
          | .error e => ([], .error (.pyExc e))
          | .ok complexity =>
          match pyStr (jgetD analysis_data "reasoning" (.str "No reasoning provided")) with
          | .error e => ([], .error (.pyExc e))
          | .ok reasoning =>
          match pyFloatOpt claude_result.cost_usd with
          | .error e => ([], .error (.pyExc e))
          | .ok cost =>
          let analysis : Analysis :=
            { issue_id := issue.id
              rating := rating
              confidence := confidence
              complexity := complexity
              reasoning := reasoning
              cost_usd := cost
              model := some "haiku" }
          if analysis.passes_threshold then
            ([analysis], .ok analysis)
          else
            ([analysis], .error (.rejected rating confidence reasoning))
      | _ => ([], .error (.pyExc .typeError))

/-! ### Orchestrator loop (pipeline/orchestrator.py, run_pipeline) -/

/-- The repo#number display key of an issue. -/
def Issue.full_repo (i : Issue) : String :=
  i.repo_owner ++ "/" ++ i.repo_name

/-- One per-issue entry of PipelineResult.results. -/
structure ResultEntry where
  issue : String
  status : String
  analysis : Option String := none
  outcome : Option String := none
  pr_url : Option String := none
deriving Repr, DecidableEq

/-- Summary of a pipeline run (orchestrator.py, PipelineResult). -/
structure PipelineResult where
  issues_scanned : Nat := 0
  issues_analyzed : Nat := 0
  issues_attempted : Nat := 0
  prs_submitted : Nat := 0
  failures : Nat := 0
  total_cost_usd : ℚ := 0
  budget_exhausted : Bool := false
  results : List ResultEntry := []
deriving Repr, DecidableEq

/-- One candidate issue together with the oracles for the external calls
its processing makes.  The submit field models the submit_pr collaborator:
an optional PR url, or an exception. -/
structure Candidate where
  issue : Issue
  analyzeEnv : AnalyzeEnv
  resolveEnv : ResolveEnv
  submit : Except PyExc (Option String)

/-- The accumulation total_cost_usd += attempt.cost_usd or 0.0: a falsy or
missing cost contributes zero; a truthy non-numeric cost makes the addition
raise TypeError (bool counts as int). -/
def pyAddCost (total : ℚ) (cost : Option JVal) : Except PyExc ℚ :=
  let v : JVal :=
    match cost with
    | none => .num 0
    | some c => if pyTruthy c then c else .num 0
  match v with
  | .num q => .ok (total + q)
  | .bool b => .ok (total + if b then 1 else 0)
  | _ => .error .typeError

/-- Embedding of the per-candidate loop of orchestrator.py, run_pipeline
(lines 76 to 169).  The loop body is transcribed clause by clause: the
budget gate break, the analyze step with its two except clauses, the
resolve step with its three except clauses, and the submit step; an
exception no clause catches propagates out of the loop. -/
def run_pipeline_loop (config : AppConfig) (session_budget : ℚ) (dry_run : Bool) :
    PipelineResult → List Candidate → Except PyExc PipelineResult
  | summary, [] => .ok summary
  | summary, cand :: rest =>
    if session_budget - summary.total_cost_usd ≤ 0 then
      .ok { summary with budget_exhausted := true }
    else
      let entry0 : ResultEntry :=
        { issue := cand.issue.full_repo ++ "#" ++ toString cand.issue.number
          status := "pending" }
      match (analyze_issue cand.issue cand.analyzeEnv dry_run).2 with
      | .error (.rejected _ _ _) =>
        run_pipeline_loop config session_budget dry_run
          { summary with
            results := summary.results ++ [{ entry0 with status := "rejected" }] }
          rest
      | .error (.claudeErr _) =>
        run_pipeline_loop config session_budget dry_run
          { summary with
            failures := summary.failures + 1
            results := summary.results ++ [{ entry0 with status := "analysis_failed" }] }
          rest
      | .error (.pyExc e) => .error e
      | .ok analysis =>
        let s1 := { summary with
                    issues_analyzed := summary.issues_analyzed + 1
                    total_cost_usd := summary.total_cost_usd + analysis.cost_usd.getD 0 }
        let entry1 := { entry0 with analysis := some analysis.rating.toStr }
        match (resolve_issue cand.issue config cand.resolveEnv dry_run).2 with
        | .error (.budgetExceeded _) =>
          .ok { s1 with
                budget_exhausted := true
                failures := s1.failures + 1
                results := s1.results ++ [{ entry1 with status := "budget_exceeded" }] }
        | .error (.testsFailed _) =>
          run_pipeline_loop config session_budget dry_run
            { s1 with
              failures := s1.failures + 1
              results := s1.results ++ [{ entry1 with status := "tests_failed" }] }
            rest
        | .error (.pyExc _) =>
          run_pipeline_loop config session_budget dry_run
            { s1 with
              failures := s1.failures + 1
              results := s1.results ++ [{ entry1 with status := "resolution_failed" }] }
            rest
        | .ok attempt =>
          let s2base := { s1 with issues_attempted := s1.issues_attempted + 1 }
          match pyAddCost s2base.total_cost_usd attempt.cost_usd with
          | .error _ =>
            -- the TypeError of the accumulation happens inside the same try
            -- and is caught by the generic except clause
            run_pipeline_loop config session_budget dry_run
              { s2base with
                failures := s2base.failures + 1
                results := s2base.results ++ [{ entry1 with status := "resolution_failed" }] }
              rest
          | .ok newTotal =>
            let s2 := { s2base with total_cost_usd := newTotal }
            let entry2 :=
              { entry1 with
                outcome := some (match attempt.outcome with
                                 | some oc => oc.toStr
                                 | none => "unknown") }
            let publishable : Bool :=
              match attempt.outcome with
              | some oc => oc == .pr_submitted || oc == .untested
              | none => false
            if publishable then
              match cand.submit with
              | .ok pr_url =>
                let s3 :=
                  match pr_url with
                  | some _ => { s2 with prs_submitted := s2.prs_submitted + 1 }
                  | none => s2
                let entry3 := { entry2 with pr_url := pr_url, status := "success" }
                run_pipeline_loop config session_budget dry_run
                  { s3 with results := s3.results ++ [entry3] } rest
              | .error _ =>
                run_pipeline_loop config session_budget dry_run
                  { s2 with
                    failures := s2.failures + 1
                    results := s2.results ++ [{ entry2 with status := "pr_failed" }] }
                  rest
            else
              run_pipeline_loop config session_budget dry_run
                { s2 with
                  failures := s2.failures + 1
                  results := s2.results ++ [{ entry2 with status := "failed" }] }
                rest

/-- Embedding of orchestrator.py, run_pipeline.  Scanning is a collaborator
(pipeline/scanner.py); the candidate list passed in stands for its result,
and rate-limit sleeps and progress callbacks are not modelled. -/
def run_pipeline (config : AppConfig) (session_budget : ℚ)
    (candidates : List Candidate) (dry_run : Bool) : Except PyExc PipelineResult :=
  let summary : PipelineResult := { issues_scanned := candidates.length }
  if candidates.isEmpty then .ok summary
  else run_pipeline_loop config session_budget dry_run summary candidates

/-! ### Issue persistence (db/repository.py, upsert_issue, together with
the issues table of db/engine.py, MIGRATION_1) -/

/-- One row of the issues table, reduced to its constrained columns: the
primary key id and the unique triple (repo_owner, repo_name, number), with
the title as a representative payload column.  Foreign keys from the other
tables are outside the scope of the modelled claims. -/
structure IssueRow where
  id : String
  repo_owner : String
  repo_name : String
  number : Int
  title : String
deriving Repr, DecidableEq

/-- The uniqueness key of the issues table:
UNIQUE(repo_owner, repo_name, number). -/
def sameIssueKey (a b : IssueRow) : Bool :=
  a.repo_owner == b.repo_owner && a.repo_name == b.repo_name && a.number == b.number

/-- Conflict with either uniqueness constraint of the issues table: the
primary key on id, or the unique triple. -/
def issueConflict (a b : IssueRow) : Bool :=
  a.id == b.id || sameIssueKey a b

/-- SQLite INSERT into the issues table.  With orReplace false a
uniqueness conflict is an error; with orReplace true, which is what
sqlite_utils insert(row, replace=True) issues, every conflicting row is
deleted and the new row is inserted. -/
def tableInsert (orReplace : Bool) (tbl : List IssueRow) (r : IssueRow) :
    Except String (List IssueRow) :=
  if (tbl.filter (fun x => issueConflict x r)).isEmpty then .ok (tbl ++ [r])
  else if orReplace then
    .ok ((tbl.filter (fun x => !(issueConflict x r))) ++ [r])
  else .error "UNIQUE constraint failed"

/-- Embedding of db/repository.py, upsert_issue: INSERT OR REPLACE of the
serialized row. -/
def upsert_issue (tbl : List IssueRow) (r : IssueRow) : Except String (List IssueRow) :=
  tableInsert true tbl r

/-- The json.loads oracle for a concrete stdout text. -/
def loadsOracle (s : String) : Except Unit JVal :=
  match jsonLoads s with
  | some v => .ok v
  | none => .error ()

/-- The persistence invariant of one attempt record: the outcome is set
exactly when the status is terminal. -/
def attemptInv (a : Attempt) : Prop :=
  a.outcome.isSome ↔ (a.status = .succeeded ∨ a.status = .failed)

/-- A persisted record that is still in_progress and carries no outcome. -/
def ipNone (op : DbOp) : Prop :=
  op.snapshot.status = .in_progress ∧ op.snapshot.outcome = none

/-- A terminal attempt carrying an outcome. -/
def terminalOutcome (a : Attempt) : Prop :=
  (a.status = .succeeded ∨ a.status = .failed) ∧ a.outcome.isSome

/-- The lifecycle shape of a persistence trace: it opens with the insert of
an in_progress attempt without outcome, closes with the update of a
terminal attempt with an outcome, and every record before the last is
in_progress without outcome. -/
def goodTrace (t : List DbOp) : Prop :=
  (∃ a0, t.head? = some (.insert a0) ∧ a0.status = .in_progress ∧ a0.outcome = none) ∧
  (∃ a, t.getLast? = some (.update a) ∧ terminalOutcome a) ∧
  (∀ op ∈ t.dropLast, ipNone op)

/-! ### Concrete scenario environments used by witnesses and
counterexamples -/

/-- A sample issue. -/
def wIssue : Issue := ⟨"issue-1", "octo", "proj", 5⟩

/-- A sample configuration. -/
def wConfig : AppConfig := ⟨"opus"⟩

/-- A successful agent reply with cost 2 and three turns. -/
def agentJsonOk : String :=
  "\x7b\"result\": \"done\", \"is_error\": false, \"cost_usd\": 2, \"num_turns\": 3\x7d"

/-- A fully successful environment up to the post-fix test run, whose
pytest output shows one new failing test. -/
def okEnv : ResolveEnv :=
  { fork_repo := .ok "octo/proj"
    create_workspace := .ok "/ws/proj"
    clone_repo := .ok ()
    create_branch := .ok ()
    detect_install := .ok none
    install_run := .ok ⟨"", "", 0⟩
    detect_runner := .ok (some ⟨"pytest", "pytest"⟩)
    read_contributing := .ok none
    read_template := .ok none
    baseline_run := .ok ⟨"all good", "", 0⟩
    invoke := .ok ⟨loadsOracle agentJsonOk, agentJsonOk, "", 0, false⟩
    has_changes := .ok true
    diff_summary := .ok "1 file changed"
    post_run := .ok ⟨"FAILED tests/b.py::t2 - boom", "", 1⟩ }

/-- Like okEnv, but the one post-fix failure already failed at baseline. -/
def envSubset : ResolveEnv :=
  { okEnv with
    baseline_run := .ok ⟨"FAILED tests/a.py::t1 - x", "", 1⟩
    post_run := .ok ⟨"FAILED tests/a.py::t1 - x", "", 1⟩ }

/-- Like okEnv, but both test runs fail without extractable identifiers:
baseline exit code 1, post-fix exit code 2. -/
def envExitCodes : ResolveEnv :=
  { okEnv with
    baseline_run := .ok ⟨"boom", "", 1⟩
    post_run := .ok ⟨"worse", "", 2⟩ }

/-- Like okEnv, but the baseline passes and the post-fix run fails without
extractable identifiers. -/
def envNoBaselineSignal : ResolveEnv :=
  { okEnv with
    baseline_run := .ok ⟨"fine", "", 0⟩
    post_run := .ok ⟨"bad", "", 2⟩ }

/-- Like okEnv, but forking raises. -/
def envFork : ResolveEnv :=
  { okEnv with fork_repo := .error (.osError "fork failed") }

/-- Agent reply for the budget scenario: a successful solvable analysis
whose cost is 1.5. -/
def c4AgentJson : String :=
  "\x7b\"result\": \"\x7b\\\"rating\\\": \\\"solvable\\\", \\\"confidence\\\": 1\x7d\", \"is_error\": false, \"cost_usd\": 1.5\x7d"

/-- The cost 1.5 as the JSON number parser builds it. -/
def c4Cost : ℚ :=
  ((digitsVal ['1'] : ℕ) : ℚ) + ((digitsVal ['5'] : ℕ) : ℚ) / (10 : ℚ) ^ (1 : ℕ)

/-- The parsed analysis of the budget scenario. -/
def c4Analysis : Analysis :=
  { issue_id := "issue-1"
    rating := .solvable
    confidence := ((digitsVal ['1'] : ℕ) : ℚ)
    reasoning := "No reasoning provided"
    cost_usd := some c4Cost
    model := some "haiku" }

/-- The attempt returned by the failing resolution of the budget
scenario. -/
def c4Attempt : Attempt :=
  { initialAttempt wIssue wConfig with status := AttemptStatus.failed, outcome := some OutcomeCategory.resolution_failed }

/-- The single result entry of the budget scenario. -/
def c4Entry : ResultEntry :=
  { issue := "octo/proj#5"
    status := "failed"
    analysis := some "solvable"
    outcome := some "resolution_failed" }

/-- The final summary of the budget scenario. -/
def c4Final : PipelineResult :=
  { issues_scanned := 2
    issues_analyzed := 1
    issues_attempted := 1
    prs_submitted := 0
    failures := 1
    total_cost_usd := (0 : ℚ) + c4Cost + 0
    budget_exhausted := true
    results := [c4Entry] }

/-- The summary after the budget scenario's first iteration, before the
second gate check. -/
def c4Mid : PipelineResult :=
  { issues_scanned := 2
    issues_analyzed := 1
    issues_attempted := 1
    prs_submitted := 0
    failures := 1
    total_cost_usd := (0 : ℚ) + c4Cost + 0
    budget_exhausted := false
    results := [c4Entry] }

/-- First budget-scenario candidate: analysis succeeds at cost 1.5, the
resolution fails on the fork. -/
def c4Candidate1 : Candidate :=
  { issue := wIssue
    analyzeEnv := ⟨.ok ⟨loadsOracle c4AgentJson, c4AgentJson, "", 0, false⟩⟩
    resolveEnv := envFork
    submit := .ok none }

/-- Second budget-scenario candidate, never reached. -/
def c4Candidate2 : Candidate :=
  { issue := ⟨"issue-2", "octo", "proj", 6⟩
    analyzeEnv := ⟨.ok ⟨loadsOracle c4AgentJson, c4AgentJson, "", 0, false⟩⟩
    resolveEnv := envFork
    submit := .ok none }

/-- Agent reply whose parsed analysis carries a rating string that is not a
member of the SolvabilityRating enumeration. -/
def c5BadRatingJson : String :=
  "\x7b\"result\": \"\x7b\\\"rating\\\": \\\"maybe\\\", \\\"confidence\\\": 0.9\x7d\", \"is_error\": false, \"cost_usd\": 0.1\x7d"

/-- Candidate whose analysis raises ValueError on the rating coercion. -/
def c5BadCandidate : Candidate :=
  { issue := wIssue
    analyzeEnv := ⟨.ok ⟨loadsOracle c5BadRatingJson, c5BadRatingJson, "", 0, false⟩⟩
    resolveEnv := envFork
    submit := .ok none }

/-- Candidate whose analysis succeeds and whose resolution raises the
tests-failed error. -/
def c5TestsFailedCandidate : Candidate :=
  { issue := wIssue
    analyzeEnv := ⟨.ok ⟨loadsOracle c4AgentJson, c4AgentJson, "", 0, false⟩⟩
    resolveEnv := okEnv
    submit := .ok none }

/-! ## Theorems -/

/-- Claim C2, counterexample.  The stdout text "5" decodes as JSON (a
number, not an object).  The claim states that a stdout failing to parse
as a single JSON object yields outcome parse_error with a fully populated
result record; instead parse_response calls .get on the decoded non-dict
and raises AttributeError, returning no record at all. -/
theorem C2_counterexample :
    parse_response (loadsOracle "5") "5" "" 0 false = .error .attributeError := by
  rfl

/-- Claim C2, amended.  Priority order of the Agent Result Parser: timeout
flag, then non-zero exit code, then JSON decode failure (each returning the
fully populated default record), then classification of a decoded object:
is_error false gives success regardless of cost, is_error true gives
budget_exceeded exactly when the cost is positive and process_error
otherwise, with absent fields defaulting to zero and empty; a stdout that
decodes to a non-object JSON value is unhandled and raises AttributeError. -/
theorem C2_parse_response_classification
    (p : Except Unit JVal) (stdout stderr : String) (rc : Int) (t : Bool)
    (fields : List (String × JVal)) (c : ℚ) :
    (t = true →
      parse_response p stdout stderr rc t =
        .ok ⟨"timeout", .str "", .num 0, .num 0, .num 0, .str "", .bool true, stdout⟩) ∧
    (t = false → rc ≠ 0 →
      parse_response p stdout stderr rc t =
        .ok ⟨"process_error", .str "", .num 0, .num 0, .num 0, .str "", .bool true, stdout⟩) ∧
    (t = false → rc = 0 → p = .error () →
      parse_response p stdout stderr rc t =
        .ok ⟨"parse_error", .str "", .num 0, .num 0, .num 0, .str "", .bool true, stdout⟩) ∧
    (t = false → rc = 0 → p = .ok (.obj fields) →
      jgetD fields "is_error" (.bool false) = .bool false →
      ∃ r, parse_response p stdout stderr rc t = .ok r ∧ r.outcome = "success") ∧
    (t = false → rc = 0 → p = .ok (.obj fields) →
      jgetD fields "is_error" (.bool false) = .bool true →
      jgetD fields "cost_usd" (jgetD fields "total_cost_usd" (.num 0)) = .num c →
      ∃ r, parse_response p stdout stderr rc t = .ok r ∧
        r.outcome = (if 0 < c then "budget_exceeded" else "process_error")) ∧
    (t = false → rc = 0 →
      (∀ v, p = .ok v → (∀ fs, v ≠ .obj fs) →
        parse_response p stdout stderr rc t = .error .attributeError)) ∧
    (t = false → rc = 0 → p = .ok (.obj []) →
      parse_response p stdout stderr rc t =
        .ok ⟨"success", .str "", .num 0, .num 0, .num 0, .str "", .bool false, stdout⟩) := by
  refine ⟨?_, ?_, ?_, ?_, ?_, ?_, ?_⟩
  · intro ht
    simp [parse_response, ht]
  · intro ht hrc
    simp [parse_response, ht, hrc]
  · intro ht hrc hp
    simp [parse_response, ht, hrc, hp]
  · intro ht hrc hp herr
    subst hp
    simp [parse_response, ht, hrc, herr, pyTruthy]
  · intro ht hrc hp herr hcost
    subst hp
    simp [parse_response, ht, hrc, herr, hcost, pyTruthy, pyGt0]
  · intro ht hrc v hp hv
    subst hp
    cases v with
    | obj fs => exact absurd rfl (hv fs)
    | null => simp [parse_response, ht, hrc]
    | bool b => simp [parse_response, ht, hrc]
    | num q => simp [parse_response, ht, hrc]
    | str s => simp [parse_response, ht, hrc]
    | arr xs => simp [parse_response, ht, hrc]
  · intro ht hrc hp
    subst hp
    simp [parse_response, ht, hrc, jgetD, pyTruthy]

/-- Claim C2, witness: the parse-failure, success-regardless-of-cost and
positive-cost branches of the amended theorem at concrete inputs. -/
theorem C2_parse_response_classification_witness :
    parse_response (loadsOracle "") "" "" 0 false =
      .ok ⟨"parse_error", .str "", .num 0, .num 0, .num 0, .str "", .bool true, ""⟩ ∧
    (∃ r, parse_response (.ok (.obj [("is_error", .bool false), ("cost_usd", .num 99)]))
        "s" "" 0 false = .ok r ∧ r.outcome = "success") ∧
    (∃ r, parse_response (.ok (.obj [("is_error", .bool true), ("cost_usd", .num 2)]))
        "s" "" 0 false = .ok r ∧
        r.outcome = (if (0 : ℚ) < 2 then "budget_exceeded" else "process_error")) := by
  refine ⟨?_, ?_, ?_⟩
  · exact (C2_parse_response_classification (loadsOracle "") "" "" 0 false [] 0).2.2.1
      rfl rfl rfl
  · exact (C2_parse_response_classification _ "s" "" 0 false
      [("is_error", .bool false), ("cost_usd", .num 99)] 0).2.2.2.1 rfl rfl rfl rfl
  · exact (C2_parse_response_classification _ "s" "" 0 false
      [("is_error", .bool true), ("cost_usd", .num 2)] 2).2.2.2.2.1 rfl rfl rfl rfl rfl

/-- Claim C8, counterexample.  In the text below the first balanced brace
substring is a valid JSON object (first conjunct), but extraction fails:
the direct parse fails, there is no code fence, and the greedy step takes
everything from the first opening brace to the last closing brace, which
is not valid JSON. -/
theorem C8_counterexample :
    jsonLoads "\x7b\"a\": 1\x7d" = some (.obj [("a", .num 1)]) ∧
    _extract_json "\x7b\"a\": 1\x7d and \x7b\"b\": 2\x7d" = none := by
  exact ⟨rfl, rfl⟩

/-- Claim C8, amended.  The Analyzer JSON extraction tries, in priority
order: direct parse of the whole text, then the first fenced code block,
then the substring running from the first opening brace to the last
closing brace of the text (not the first balanced substring), returning
the first candidate in that order that parses as a JSON object and None
when none does. -/
theorem C8_extract_json_priority (text : String) :
    (∀ fs, directStep text = some fs → _extract_json text = some fs) ∧
    (directStep text = none →
      ∀ fs, fenceStep text = some fs → _extract_json text = some fs) ∧
    (directStep text = none → fenceStep text = none →
      _extract_json text = braceStep text) ∧
    (∀ fs, jsonLoads text = some (.obj fs) → _extract_json text = some fs) := by
  refine ⟨?_, ?_, ?_, ?_⟩
  · intro fs h
    simp [_extract_json, h]
  · intro h1 fs h2
    simp [_extract_json, h1, h2]
  · intro h1 h2
    simp [_extract_json, h1, h2]
  · intro fs h
    simp [_extract_json, directStep, h]

/-- Claim C8, witness: the fence branch and the brace branch of the amended
theorem at concrete texts. -/
theorem C8_extract_json_priority_witness :
    _extract_json "prose ```json\n\x7b\"a\": 1\x7d\n``` post" = some [("a", .num 1)] ∧
    _extract_json "text \x7b\"only\": 1\x7d tail" =
      braceStep "text \x7b\"only\": 1\x7d tail" := by
  constructor
  · exact (C8_extract_json_priority "prose ```json\n\x7b\"a\": 1\x7d\n``` post").2.1
      rfl [("a", .num 1)] rfl
  · exact (C8_extract_json_priority "text \x7b\"only\": 1\x7d tail").2.2.1 rfl rfl

/-- Helper: the upsert never errors and its result is the table with the
conflicting rows removed and the new row appended. -/
theorem upsert_issue_eq (tbl : List IssueRow) (r : IssueRow) :
    upsert_issue tbl r = .ok ((tbl.filter (fun x => !(issueConflict x r))) ++ [r]) := by
  unfold upsert_issue tableInsert
  split
  · rename_i h
    have hnil : tbl.filter (fun x => issueConflict x r) = [] := by
      simpa [List.isEmpty_iff] using h
    have hall : ∀ x ∈ tbl, ¬ (issueConflict x r = true) := by
      intro x hx
      exact (List.filter_eq_nil.mp hnil) x hx
    have : tbl.filter (fun x => !(issueConflict x r)) = tbl := by
      apply List.filter_eq_self.mpr
      intro a ha
      simpa using hall a ha
    rw [this]
  · rfl

/-- Claim C9: upserting twice with the same (owner, project, number) key
never raises and leaves exactly one record with that key, whether or not
the two records carry the same internal id. -/
theorem C9_upsert_issue_idempotent (tbl : List IssueRow) (r1 r2 : IssueRow)
    (hkey : sameIssueKey r1 r2 = true) :
    ∃ t1 t2, upsert_issue tbl r1 = .ok t1 ∧ upsert_issue t1 r2 = .ok t2 ∧
      (t2.filter (fun x => sameIssueKey x r2)).length = 1 := by
  refine ⟨_, _, upsert_issue_eq tbl r1, upsert_issue_eq _ r2, ?_⟩
  have hfiltered :
      ((((tbl.filter (fun x => !(issueConflict x r1))) ++ [r1]).filter
        (fun x => !(issueConflict x r2))).filter (fun x => sameIssueKey x r2)) = [] := by
    apply List.filter_eq_nil.mpr
    intro a ha
    have ha2 := List.mem_filter.mp ha
    have hnc : issueConflict a r2 = false := by
      simpa using ha2.2
    intro hs
    have : issueConflict a r2 = true := by
      simp [issueConflict, hs]
    simp [this] at hnc
  have hself : sameIssueKey r2 r2 = true := by
    simp [sameIssueKey]
  rw [List.filter_append, hfiltered]
  simp [hself]

/-- Claim C9, witness: two upserts with the same key and different internal
ids leave one record. -/
theorem C9_upsert_issue_idempotent_witness :
    ∃ t1 t2,
      upsert_issue [] ⟨"id1", "owner", "proj", 7, "first"⟩ = .ok t1 ∧
      upsert_issue t1 ⟨"id2", "owner", "proj", 7, "second"⟩ = .ok t2 ∧
      (t2.filter (fun x => sameIssueKey x ⟨"id2", "owner", "proj", 7, "second"⟩)).length = 1 :=
  C9_upsert_issue_idempotent [] ⟨"id1", "owner", "proj", 7, "first"⟩
    ⟨"id2", "owner", "proj", 7, "second"⟩ (by decide)

set_option maxHeartbeats 1000000 in
/-- Helper: every record the diff and test stage persists satisfies the
outcome-iff-terminal invariant, provided the records persisted so far do. -/
theorem diff_tests_inv (env : ResolveEnv) (tr : Option DetectedTestRunner)
    (brc : Int) (bfails : List String) (t1 : List DbOp) (a2 : Attempt)
    (ht1 : ∀ op ∈ t1, attemptInv op.snapshot)
    (hs : a2.status = .in_progress) (ho : a2.outcome = none) :
    ∀ op ∈ (resolve_diff_and_tests env tr brc bfails t1 a2).1, attemptInv op.snapshot := by
  intro op hop
  unfold resolve_diff_and_tests at hop
  repeat' (first | split at hop | dsimp only at hop)
  all_goals try simp only [List.mem_append, List.mem_singleton, List.not_mem_nil,
    or_false, false_or] at hop
  all_goals try (exact ht1 op hop)
  all_goals try (rcases hop with hop | hop)
  all_goals try (exact ht1 op hop)
  all_goals try (rcases hop with rfl)
  all_goals simp [attemptInv, DbOp.snapshot, hs, ho]

set_option maxHeartbeats 1000000 in
/-- Helper: every record the agent-outcome stage persists satisfies the
outcome-iff-terminal invariant. -/
theorem agent_outcome_inv (env : ResolveEnv) (tr : Option DetectedTestRunner)
    (brc : Int) (bfails : List String) (cr : ClaudeResult)
    (t1 : List DbOp) (a1 : Attempt)
    (ht1 : ∀ op ∈ t1, attemptInv op.snapshot)
    (hs : a1.status = .in_progress) (ho : a1.outcome = none) :
    ∀ op ∈ (resolve_agent_outcome env tr brc bfails cr t1 a1).1, attemptInv op.snapshot := by
  intro op hop
  unfold resolve_agent_outcome at hop
  repeat' (first | split at hop | dsimp only at hop)
  all_goals try (refine diff_tests_inv env tr brc bfails t1 _ ht1 ?_ ?_ op hop <;>
    simp [hs, ho])
  all_goals try simp only [List.mem_append, List.mem_singleton, List.not_mem_nil,
    or_false, false_or] at hop
  all_goals try (exact ht1 op hop)
  all_goals try (rcases hop with hop | hop)
  all_goals try (exact ht1 op hop)
  all_goals try (rcases hop with rfl)
  all_goals simp [attemptInv, DbOp.snapshot, hs, ho]

set_option maxHeartbeats 1000000 in
/-- Helper: every record the try-block body persists satisfies the
outcome-iff-terminal invariant. -/
theorem resolve_body_inv (env : ResolveEnv) (a0 : Attempt)
    (hs : a0.status = .in_progress) (ho : a0.outcome = none) :
    ∀ op ∈ (resolve_issue_body env a0).1, attemptInv op.snapshot := by
  intro op hop
  unfold resolve_issue_body at hop
  repeat' (first | split at hop | dsimp only at hop)
  all_goals try (
    refine agent_outcome_inv env _ _ _ _ [DbOp.update _] _ ?_ ?_ ?_ op hop
    · intro op2 hop2
      simp only [List.mem_singleton] at hop2
      subst hop2
      simp [attemptInv, DbOp.snapshot, hs, ho]
    · simp [hs]
    · simp [ho])
  all_goals try simp only [List.mem_append, List.mem_singleton, List.not_mem_nil,
    or_false, false_or] at hop
  all_goals try (rcases hop with rfl)
  all_goals simp [attemptInv, DbOp.snapshot, hs, ho]

/-- Claim C6: every Attempt record the Resolver hands to the persistence
layer, on every path, has its outcome set exactly when its status is
terminal. -/
theorem C6_outcome_iff_terminal (issue : Issue) (config : AppConfig)
    (env : ResolveEnv) (dry_run : Bool) :
    ∀ op ∈ (resolve_issue issue config env dry_run).1, attemptInv op.snapshot := by
  intro op hop
  by_cases hd : dry_run = true
  · simp only [resolve_issue, hd, eq_self_iff_true, if_true, List.singleton_append,
      List.mem_cons, List.not_mem_nil, or_false] at hop
    rcases hop with rfl | rfl <;>
      simp [attemptInv, DbOp.snapshot, initialAttempt]
  · have hbi := resolve_body_inv env (initialAttempt issue config) rfl rfl
    rcases hbody : resolve_issue_body env (initialAttempt issue config) with ⟨t, r⟩
    rw [hbody] at hbi
    rcases r with ⟨exc, aerr⟩ | a
    · rcases exc with c | m | e
      · simp only [resolve_issue, hd, Bool.false_eq_true, if_false, hbody,
          List.singleton_append, List.mem_cons, List.mem_append,
          List.mem_singleton] at hop
        rcases hop with rfl | hop
        · simp [attemptInv, DbOp.snapshot, initialAttempt]
        · exact hbi op hop
      · simp only [resolve_issue, hd, Bool.false_eq_true, if_false, hbody,
          List.singleton_append, List.mem_cons, List.mem_append,
          List.mem_singleton] at hop
        rcases hop with rfl | hop
        · simp [attemptInv, DbOp.snapshot, initialAttempt]
        · exact hbi op hop
      · simp only [resolve_issue, hd, Bool.false_eq_true, if_false, hbody,
          List.singleton_append, List.mem_cons, List.mem_append,
          List.mem_singleton, List.not_mem_nil, or_false] at hop
        rcases hop with (rfl | hop) | rfl
        · simp [attemptInv, DbOp.snapshot, initialAttempt]
        · exact hbi op hop
        · simp [attemptInv, DbOp.snapshot]
    · simp only [resolve_issue, hd, Bool.false_eq_true, if_false, hbody,
        List.singleton_append, List.mem_cons, List.mem_append,
        List.mem_singleton] at hop
      rcases hop with rfl | hop
      · simp [attemptInv, DbOp.snapshot, initialAttempt]
      · exact hbi op hop

/-- Claim C6, witness: the invariant at the initial insert of a concrete
dry run. -/
theorem C6_outcome_iff_terminal_witness :
    attemptInv (DbOp.insert (initialAttempt wIssue wConfig)).snapshot :=
  C6_outcome_iff_terminal wIssue wConfig okEnv true
    (DbOp.insert (initialAttempt wIssue wConfig))
    (by simp [resolve_issue, initialAttempt])
set_option maxHeartbeats 1000000 in
/-- Helper: the diff and test stage either raises a generic exception
leaving the trace untouched, or ends the trace with one terminal update. -/
theorem diff_tests_shape (env : ResolveEnv) (tr : Option DetectedTestRunner)
    (brc : Int) (bfails : List String) (t1 : List DbOp) (a2 : Attempt) :
    (∃ e aerr, (resolve_diff_and_tests env tr brc bfails t1 a2).2 = .error (.pyExc e, aerr) ∧
      (resolve_diff_and_tests env tr brc bfails t1 a2).1 = t1) ∨
    ((∀ e aerr, (resolve_diff_and_tests env tr brc bfails t1 a2).2 ≠ .error (.pyExc e, aerr)) ∧
      ∃ a, (resolve_diff_and_tests env tr brc bfails t1 a2).1 = t1 ++ [DbOp.update a] ∧
        terminalOutcome a) := by
  unfold resolve_diff_and_tests
  repeat' (first | split | dsimp only)
  all_goals first
    | exact Or.inl ⟨_, _, rfl, rfl⟩
    | (refine Or.inr ⟨by simp, _, rfl, ?_⟩ ; simp [terminalOutcome])

set_option maxHeartbeats 1000000 in
/-- Helper: the agent-outcome stage either raises a generic exception
leaving the trace untouched, or ends the trace with one terminal update. -/
theorem agent_outcome_shape (env : ResolveEnv) (tr : Option DetectedTestRunner)
    (brc : Int) (bfails : List String) (cr : ClaudeResult)
    (t1 : List DbOp) (a1 : Attempt) :
    (∃ e aerr, (resolve_agent_outcome env tr brc bfails cr t1 a1).2 = .error (.pyExc e, aerr) ∧
      (resolve_agent_outcome env tr brc bfails cr t1 a1).1 = t1) ∨
    ((∀ e aerr, (resolve_agent_outcome env tr brc bfails cr t1 a1).2 ≠ .error (.pyExc e, aerr)) ∧
      ∃ a, (resolve_agent_outcome env tr brc bfails cr t1 a1).1 = t1 ++ [DbOp.update a] ∧
        terminalOutcome a) := by
  unfold resolve_agent_outcome
  repeat' (first | split | dsimp only)
  all_goals first
    | exact Or.inl ⟨_, _, rfl, rfl⟩
    | (refine Or.inr ⟨by simp, _, rfl, ?_⟩ ; simp [terminalOutcome])
    | exact diff_tests_shape env tr brc bfails t1 _

set_option maxHeartbeats 1000000 in
/-- Helper: the try-block body either raises a generic exception with every
persisted record still in progress, or ends its trace with one terminal
update preceded only by in-progress records. -/
theorem resolve_body_shape (env : ResolveEnv) (a0 : Attempt)
    (hs : a0.status = .in_progress) (ho : a0.outcome = none) :
    (∃ e aerr, (resolve_issue_body env a0).2 = .error (.pyExc e, aerr) ∧
      ∀ op ∈ (resolve_issue_body env a0).1, ipNone op) ∨
    ((∀ e aerr, (resolve_issue_body env a0).2 ≠ .error (.pyExc e, aerr)) ∧
      ∃ mid a, (resolve_issue_body env a0).1 = mid ++ [DbOp.update a] ∧
        (∀ op ∈ mid, ipNone op) ∧ terminalOutcome a) := by
  have hips : ∀ wpath, ∀ op ∈ [DbOp.update { a0 with workspace_path := some wpath }], ipNone op := by
    intro wpath op hop
    simp only [List.mem_singleton] at hop
    subst hop
    simp [ipNone, DbOp.snapshot, hs, ho]
  have hnil : ∀ op ∈ ([] : List DbOp), ipNone op := by simp
  unfold resolve_issue_body
  repeat' (first | split | dsimp only)
  all_goals try (exact Or.inl ⟨_, _, rfl, hnil⟩)
  all_goals try (exact Or.inl ⟨_, _, rfl, hips _⟩)
  all_goals (
    rcases agent_outcome_shape env _ _ _ _ _ _ with ⟨e, aerr, h2, h1⟩ | ⟨hne, a, h1, hterm⟩
    · exact Or.inl ⟨e, aerr, h2, by rw [h1] ; exact hips _⟩
    · exact Or.inr ⟨hne, _, a, h1, hips _, hterm⟩)
/-- Helper: a trace of one insert of an in-progress attempt, in-progress
middle updates, and one terminal update is a good lifecycle trace. -/
theorem goodTrace_build (a0 : Attempt) (mid : List DbOp) (alast : Attempt)
    (hs : a0.status = .in_progress) (ho : a0.outcome = none)
    (hmid : ∀ op ∈ mid, ipNone op) (hterm : terminalOutcome alast) :
    goodTrace (DbOp.insert a0 :: (mid ++ [DbOp.update alast])) := by
  refine ⟨⟨a0, rfl, hs, ho⟩, ⟨alast, ?_, hterm⟩, ?_⟩
  · rw [show DbOp.insert a0 :: (mid ++ [DbOp.update alast]) =
      (DbOp.insert a0 :: mid) ++ [DbOp.update alast] from by simp]
    exact List.getLast?_concat _
  · rw [show DbOp.insert a0 :: (mid ++ [DbOp.update alast]) =
      (DbOp.insert a0 :: mid) ++ [DbOp.update alast] from by simp]
    rw [List.dropLast_concat]
    intro op hop
    rcases List.mem_cons.mp hop with rfl | hop
    · exact ⟨hs, ho⟩
    · exact hmid op hop

/-- Claim C7, counterexample.  The statuses the Resolver persists in a
concrete run are in_progress, in_progress, failed: the Attempt is
constructed with status in_progress (resolver.py line 120), so the first
persisted record of the Attempt is never pending. -/
theorem C7_counterexample :
    ((resolve_issue wIssue wConfig okEnv false).1.map (fun op => op.snapshot.status)) =
      [AttemptStatus.in_progress, AttemptStatus.in_progress, AttemptStatus.failed] := by
  rfl

/-- Claim C7, amended.  For every resolution run the Attempt is created at
resolution start with status in_progress and persisted immediately as the
first record; every later persisted record up to the last is still
in_progress without outcome, and the final persisted record is terminal
with an outcome. -/
theorem C7_lifecycle (issue : Issue) (config : AppConfig) (env : ResolveEnv)
    (dry_run : Bool) : goodTrace (resolve_issue issue config env dry_run).1 := by
  by_cases hd : dry_run = true
  · have htr : (resolve_issue issue config env dry_run).1 =
        DbOp.insert (initialAttempt issue config) ::
          ([] ++ [DbOp.update { initialAttempt issue config with
            status := .succeeded, outcome := some .pr_submitted,
            cost_usd := some (.num 0),
            diff_summary := some "[DRY RUN] Would implement fix and run tests" }]) := by
      simp [resolve_issue, hd]
    rw [htr]
    exact goodTrace_build _ _ _ rfl rfl (by simp) ⟨Or.inl rfl, rfl⟩
  · have hshape := resolve_body_shape env (initialAttempt issue config) rfl rfl
    rcases hbody : resolve_issue_body env (initialAttempt issue config) with ⟨t, r⟩
    rw [hbody] at hshape
    rcases r with ⟨exc, aerr⟩ | a
    · rcases exc with c | m | e
      · rcases hshape with ⟨e2, aerr2, h2, h1⟩ | ⟨hne, mid, alast, h1, hmid, hterm⟩
        · simp at h2
        · have htr : (resolve_issue issue config env dry_run).1 =
              DbOp.insert (initialAttempt issue config) :: (mid ++ [DbOp.update alast]) := by
            simp only [resolve_issue, hd, Bool.false_eq_true, if_false, hbody]
            simpa using h1
          rw [htr]
          exact goodTrace_build _ _ _ rfl rfl hmid hterm
      · rcases hshape with ⟨e2, aerr2, h2, h1⟩ | ⟨hne, mid, alast, h1, hmid, hterm⟩
        · simp at h2
        · have htr : (resolve_issue issue config env dry_run).1 =
              DbOp.insert (initialAttempt issue config) :: (mid ++ [DbOp.update alast]) := by
            simp only [resolve_issue, hd, Bool.false_eq_true, if_false, hbody]
            simpa using h1
          rw [htr]
          exact goodTrace_build _ _ _ rfl rfl hmid hterm
      · rcases hshape with ⟨e2, aerr2, h2, h1⟩ | ⟨hne, mid, alast, h1, hmid, hterm⟩
        · have htr : (resolve_issue issue config env dry_run).1 =
              DbOp.insert (initialAttempt issue config) ::
                (t ++ [DbOp.update
                  { aerr with status := .failed, outcome := some .resolution_failed }]) := by
            simp only [resolve_issue, hd, Bool.false_eq_true, if_false, hbody]
            simp
          rw [htr]
          exact goodTrace_build _ _ _ rfl rfl h1 ⟨Or.inr rfl, rfl⟩
        · exact absurd rfl (hne e aerr)
    · rcases hshape with ⟨e2, aerr2, h2, h1⟩ | ⟨hne, mid, alast, h1, hmid, hterm⟩
      · simp at h2
      · have htr : (resolve_issue issue config env dry_run).1 =
            DbOp.insert (initialAttempt issue config) :: (mid ++ [DbOp.update alast]) := by
          simp only [resolve_issue, hd, Bool.false_eq_true, if_false, hbody]
          simpa using h1
        rw [htr]
        exact goodTrace_build _ _ _ rfl rfl hmid hterm

/-- Claim C7, witness: the amended lifecycle at a concrete resolution. -/
theorem C7_lifecycle_witness : goodTrace (resolve_issue wIssue wConfig okEnv false).1 :=
  C7_lifecycle wIssue wConfig okEnv false
/-- Claim C10: resolve_issue either returns an Attempt or raises only one
of the two distinguished errors, budget-exceeded or tests-failed; every
other exception raised inside the try block is caught and converted into a
returned Attempt with status failed and outcome resolution_failed. -/
theorem C10_resolve_issue_errors (issue : Issue) (config : AppConfig)
    (env : ResolveEnv) (dry_run : Bool) :
    (∀ e, (resolve_issue issue config env dry_run).2 ≠ .error (.pyExc e)) ∧
    (∀ e a t,
      resolve_issue_body env (initialAttempt issue config) = (t, .error (.pyExc e, a)) →
      dry_run = false →
      (resolve_issue issue config env dry_run).2 =
        .ok { a with status := AttemptStatus.failed, outcome := some OutcomeCategory.resolution_failed }) := by
  constructor
  · intro e
    by_cases hd : dry_run = true
    · simp [resolve_issue, hd]
    · rcases hbody : resolve_issue_body env (initialAttempt issue config) with ⟨t, r⟩
      rcases r with ⟨exc, aerr⟩ | a
      · rcases exc with c | m | e2 <;>
          simp [resolve_issue, hd, hbody]
      · simp [resolve_issue, hd, hbody]
  · intro e a t hbody hd
    subst hd
    simp [resolve_issue, hbody]

/-- Claim C10, witness: a failing fork is converted into a returned
resolution_failed Attempt. -/
theorem C10_resolve_issue_errors_witness :
    (resolve_issue wIssue wConfig envFork false).2 =
      .ok { initialAttempt wIssue wConfig with status := AttemptStatus.failed, outcome := some OutcomeCategory.resolution_failed } :=
  (C10_resolve_issue_errors wIssue wConfig envFork false).2 (.osError "fork failed")
    (initialAttempt wIssue wConfig) [] rfl rfl
set_option maxHeartbeats 1000000 in
/-- Helper: when every step up to and including a successful agent
invocation goes through, the try-block body reduces to the diff and test
stage, with the workspace update persisted and cost and turns recorded on
the attempt. -/
theorem resolve_body_reaches_tests (issue : Issue) (config : AppConfig)
    (env : ResolveEnv) (fn wpath : String) (inst : Option Installer)
    (tr : DetectedTestRunner) (cm pt : Option String) (brc : Int)
    (bfails : List String) (iv : InvokeResult) (cr : ClaudeResult)
    (hf : env.fork_repo = .ok fn)
    (hw : env.create_workspace = .ok wpath)
    (hcl : env.clone_repo = .ok ())
    (hbr : env.create_branch = .ok ())
    (hdi : env.detect_install = .ok inst)
    (hins : install_step inst env = .ok ())
    (hdr : env.detect_runner = .ok (some tr))
    (hrc : env.read_contributing = .ok cm)
    (hrt : env.read_template = .ok pt)
    (hbase : baseline_step (some tr) env = .ok (brc, bfails))
    (hiv : env.invoke = .ok iv)
    (hpr : parse_response iv.stdoutParse iv.stdout iv.stderr iv.returncode
      iv.timeout_expired = .ok cr)
    (hsucc : cr.outcome = "success") :
    resolve_issue_body env (initialAttempt issue config) =
      resolve_diff_and_tests env (some tr) brc bfails
        [DbOp.update { initialAttempt issue config with workspace_path := some wpath }]
        { initialAttempt issue config with workspace_path := some wpath, cost_usd := some cr.cost_usd, num_turns := some cr.num_turns } := by
  unfold resolve_issue_body
  simp only [hf, hw, hcl, hbr, hdi, hins, hdr, hrc, hrt, hbase, hiv, hpr]
  unfold resolve_agent_outcome
  simp only [hsucc]
  simp
/-- Helper: a subset has an empty set difference. -/
theorem setDiff_eq_nil_of_subset (a b : List String)
    (h : setSubset a b = true) : setDiff a b = [] := by
  unfold setSubset at h
  unfold setDiff
  rw [List.filter_eq_nil_iff]
  intro s hs
  have hb := (List.all_eq_true.mp h) s hs
  simp at hb
  simp [hb]

set_option maxHeartbeats 1000000 in
/-- Helper: the four classification outcomes of the post-fix test
comparison, for a run with a non-zero exit code that is not the
zero-tests-collected case: a non-empty set difference raises the
regression error; no extracted failures with a failing baseline exit code
is permissive; extracted failures all contained in the baseline are
permissive; and no extracted failures with a clean baseline exit code
falls to the conservative default. -/
theorem diff_tests_classify (env : ResolveEnv) (tr : DetectedTestRunner)
    (brc : Int) (bfails : List String) (t1 : List DbOp) (a2 : Attempt)
    (ds : String) (run : RunResult) (prc : Int) (pout : String)
    (pfails : List String)
    (hhc : env.has_changes = .ok true)
    (hds : env.diff_summary = .ok ds)
    (hpost : env.post_run = .ok run)
    (hrun : _run_tests tr run = (prc, pout, pfails))
    (hprc : ¬ prc = 0)
    (hp5 : ¬ (tr.runner_name = "pytest" ∧ prc = 5)) :
    (setDiff pfails bfails ≠ [] →
      ∃ a, resolve_diff_and_tests env (some tr) brc bfails t1 a2 =
        (t1 ++ [DbOp.update a],
         .error (.testsFailed (newRegressionsMsg (setDiff pfails bfails)), a)) ∧
        a.status = .failed ∧ a.outcome = some .tests_failed) ∧
    (pfails = [] → brc ≠ 0 →
      ∃ a, resolve_diff_and_tests env (some tr) brc bfails t1 a2 =
        (t1 ++ [DbOp.update a], .ok a) ∧
        a.status = .succeeded ∧ a.outcome = some .pr_submitted) ∧
    (pfails ≠ [] → setSubset pfails bfails = true →
      ∃ a, resolve_diff_and_tests env (some tr) brc bfails t1 a2 =
        (t1 ++ [DbOp.update a], .ok a) ∧
        a.status = .succeeded ∧ a.outcome = some .pr_submitted) ∧
    (pfails = [] → brc = 0 →
      ∃ a, resolve_diff_and_tests env (some tr) brc bfails t1 a2 =
        (t1 ++ [DbOp.update a],
         .error (.testsFailed (testsFailedFallbackMsg pout), a)) ∧
        a.status = .failed ∧ a.outcome = some .tests_failed) := by
  unfold resolve_diff_and_tests
  simp only [hhc, hds, hpost, hrun]
  refine ⟨?_, ?_, ?_, ?_⟩
  · intro hnew
    rw [if_neg hprc, if_neg hp5, if_pos hnew]
    exact ⟨_, rfl, rfl, rfl⟩
  · intro hpf hbrc
    have hnew : ¬ (setDiff pfails bfails ≠ []) := by
      subst hpf
      simp [setDiff]
    rw [if_neg hprc, if_neg hp5, if_neg hnew, if_pos ⟨hpf, hbrc⟩]
    exact ⟨_, rfl, rfl, rfl⟩
  · intro hpf hsub
    have hnew : ¬ (setDiff pfails bfails ≠ []) := by
      simp [setDiff_eq_nil_of_subset pfails bfails hsub]
    have hmid : ¬ (pfails = [] ∧ brc ≠ 0) := by
      intro hc
      exact hpf hc.1
    rw [if_neg hprc, if_neg hp5, if_neg hnew, if_neg hmid, if_pos ⟨hpf, hsub⟩]
    exact ⟨_, rfl, rfl, rfl⟩
  · intro hpf hbrc
    have hnew : ¬ (setDiff pfails bfails ≠ []) := by
      subst hpf
      simp [setDiff]
    have hmid : ¬ (pfails = [] ∧ brc ≠ 0) := by
      intro hc
      exact hc.2 hbrc
    have hsub : ¬ (pfails ≠ [] ∧ setSubset pfails bfails = true) := by
      intro hc
      exact hc.1 hpf
    rw [if_neg hprc, if_neg hp5, if_neg hnew, if_neg hmid, if_neg hsub]
    exact ⟨_, rfl, rfl, rfl⟩
set_option maxHeartbeats 1000000 in
/-- Claim C1: in the post-fix test stage, with a non-zero exit code that is
not the zero-tests-collected case, new_failures is the set difference of
the extracted post-fix failures minus the baseline failures; a non-empty
new_failures classifies the Attempt as tests_failed with status failed and
raises the distinguished tests-failed error carrying the offending
identifiers, and non-empty post-fix failures that are a subset of the
baseline classify the Attempt as pr_submitted with status succeeded. -/
theorem C1_regression_classification (issue : Issue) (config : AppConfig)
    (env : ResolveEnv) (fn wpath : String) (inst : Option Installer)
    (tr : DetectedTestRunner) (cm pt : Option String) (brc : Int)
    (bfails : List String) (iv : InvokeResult) (cr : ClaudeResult)
    (ds : String) (run : RunResult) (prc : Int) (pout : String)
    (pfails : List String)
    (hf : env.fork_repo = .ok fn)
    (hw : env.create_workspace = .ok wpath)
    (hcl : env.clone_repo = .ok ())
    (hbr : env.create_branch = .ok ())
    (hdi : env.detect_install = .ok inst)
    (hins : install_step inst env = .ok ())
    (hdr : env.detect_runner = .ok (some tr))
    (hrc : env.read_contributing = .ok cm)
    (hrt : env.read_template = .ok pt)
    (hbase : baseline_step (some tr) env = .ok (brc, bfails))
    (hiv : env.invoke = .ok iv)
    (hpr : parse_response iv.stdoutParse iv.stdout iv.stderr iv.returncode
      iv.timeout_expired = .ok cr)
    (hsucc : cr.outcome = "success")
    (hhc : env.has_changes = .ok true)
    (hds : env.diff_summary = .ok ds)
    (hpost : env.post_run = .ok run)
    (hrun : _run_tests tr run = (prc, pout, pfails))
    (hprc : ¬ prc = 0)
    (hp5 : ¬ (tr.runner_name = "pytest" ∧ prc = 5)) :
    (setDiff pfails bfails ≠ [] →
      (resolve_issue issue config env false).2 =
        .error (.testsFailed (newRegressionsMsg (setDiff pfails bfails))) ∧
      ∃ a, (resolve_issue issue config env false).1.getLast? = some (DbOp.update a) ∧
        a.status = .failed ∧ a.outcome = some .tests_failed) ∧
    (pfails ≠ [] → setSubset pfails bfails = true →
      ∃ a, (resolve_issue issue config env false).2 = .ok a ∧
        a.status = .succeeded ∧ a.outcome = some .pr_submitted) := by
  have hbe := resolve_body_reaches_tests issue config env fn wpath inst tr cm pt
    brc bfails iv cr hf hw hcl hbr hdi hins hdr hrc hrt hbase hiv hpr hsucc
  have hcls := diff_tests_classify env tr brc bfails
    [DbOp.update { initialAttempt issue config with workspace_path := some wpath }]
    { initialAttempt issue config with workspace_path := some wpath, cost_usd := some cr.cost_usd, num_turns := some cr.num_turns }
    ds run prc pout pfails hhc hds hpost hrun hprc hp5
  constructor
  · intro hnew
    obtain ⟨a, heq, hst, hoc⟩ := hcls.1 hnew
    have hbody := hbe.trans heq
    refine ⟨by simp [resolve_issue, hbody], a, ?_, hst, hoc⟩
    simp [resolve_issue, hbody]
  · intro hpf hsub
    obtain ⟨a, heq, hst, hoc⟩ := (hcls.2.2.1) hpf hsub
    have hbody := hbe.trans heq
    exact ⟨a, by simp [resolve_issue, hbody], hst, hoc⟩
/-- Claim C1, witness: the two spec scenarios.  A clean baseline with a new
post-fix failure raises the regression error naming the failing test, and
a post-fix failure set equal to the baseline set is classified
pr_submitted and succeeded. -/
theorem C1_regression_classification_witness :
    (resolve_issue wIssue wConfig okEnv false).2 =
      .error (.testsFailed (newRegressionsMsg (setDiff ["tests/b.py::t2"] []))) ∧
    (∃ a, (resolve_issue wIssue wConfig envSubset false).2 = .ok a ∧
      a.status = .succeeded ∧ a.outcome = some .pr_submitted) := by
  constructor
  · exact ((C1_regression_classification wIssue wConfig okEnv "octo/proj" "/ws/proj"
      none ⟨"pytest", "pytest"⟩ none none 0 []
      ⟨loadsOracle agentJsonOk, agentJsonOk, "", 0, false⟩
      ⟨"success", .str "done", .num 2, .num 0, .num 3, .str "", .bool false, agentJsonOk⟩
      "1 file changed" ⟨"FAILED tests/b.py::t2 - boom", "", 1⟩ 1
      "FAILED tests/b.py::t2 - boom" ["tests/b.py::t2"]
      rfl rfl rfl rfl rfl rfl rfl rfl rfl rfl rfl rfl rfl rfl rfl rfl rfl
      (by decide) (by decide)).1 (by decide)).1
  · exact (C1_regression_classification wIssue wConfig envSubset "octo/proj" "/ws/proj"
      none ⟨"pytest", "pytest"⟩ none none 1 ["tests/a.py::t1"]
      ⟨loadsOracle agentJsonOk, agentJsonOk, "", 0, false⟩
      ⟨"success", .str "done", .num 2, .num 0, .num 3, .str "", .bool false, agentJsonOk⟩
      "1 file changed" ⟨"FAILED tests/a.py::t1 - x", "", 1⟩ 1
      "FAILED tests/a.py::t1 - x" ["tests/a.py::t1"]
      rfl rfl rfl rfl rfl rfl rfl rfl rfl rfl rfl rfl rfl rfl rfl rfl rfl
      (by decide) (by decide)).2 (by decide) (by decide)

/-- Claim C3, counterexample.  Baseline exit code 1, post-fix exit code 2,
no extractable identifiers in either run: the claim requires the
conservative default tests_failed because the baseline signal is not at
least as bad as the post-fix signal, but the code checks only that the
baseline exit code was non-zero and classifies pr_submitted, succeeded. -/
theorem C3_counterexample :
    (resolve_issue wIssue wConfig envExitCodes false).2 =
      .ok { issue_id := "issue-1", status := .succeeded, outcome := some .pr_submitted, cost_usd := some (.num 2), workspace_path := some "/ws/proj", branch_name := some "fix/issue-5", num_turns := some (.num 3), model := some "opus", test_output := some "worse", diff_summary := some "1 file changed" } := by
  rfl

set_option maxHeartbeats 1000000 in
/-- Claim C3, amended.  When the post-fix run exits non-zero (not the
zero-tests-collected case) and failure extraction yields no identifiers,
the Attempt is classified pr_submitted with status succeeded exactly when
the baseline exit code was non-zero, regardless of how the two exit codes
compare; when the baseline exited zero, the Attempt falls to the
conservative default and is classified tests_failed. -/
theorem C3_exit_code_fallback (issue : Issue) (config : AppConfig)
    (env : ResolveEnv) (fn wpath : String) (inst : Option Installer)
    (tr : DetectedTestRunner) (cm pt : Option String) (brc : Int)
    (bfails : List String) (iv : InvokeResult) (cr : ClaudeResult)
    (ds : String) (run : RunResult) (prc : Int) (pout : String)
    (pfails : List String)
    (hf : env.fork_repo = .ok fn)
    (hw : env.create_workspace = .ok wpath)
    (hcl : env.clone_repo = .ok ())
    (hbr : env.create_branch = .ok ())
    (hdi : env.detect_install = .ok inst)
    (hins : install_step inst env = .ok ())
    (hdr : env.detect_runner = .ok (some tr))
    (hrc : env.read_contributing = .ok cm)
    (hrt : env.read_template = .ok pt)
    (hbase : baseline_step (some tr) env = .ok (brc, bfails))
    (hiv : env.invoke = .ok iv)
    (hpr : parse_response iv.stdoutParse iv.stdout iv.stderr iv.returncode
      iv.timeout_expired = .ok cr)
    (hsucc : cr.outcome = "success")
    (hhc : env.has_changes = .ok true)
    (hds : env.diff_summary = .ok ds)
    (hpost : env.post_run = .ok run)
    (hrun : _run_tests tr run = (prc, pout, pfails))
    (hprc : ¬ prc = 0)
    (hp5 : ¬ (tr.runner_name = "pytest" ∧ prc = 5))
    (hpf : pfails = []) :
    (brc ≠ 0 → ∃ a, (resolve_issue issue config env false).2 = .ok a ∧
      a.status = .succeeded ∧ a.outcome = some .pr_submitted) ∧
    (brc = 0 → (resolve_issue issue config env false).2 =
        .error (.testsFailed (testsFailedFallbackMsg pout)) ∧
      ∃ a, (resolve_issue issue config env false).1.getLast? = some (DbOp.update a) ∧
        a.status = .failed ∧ a.outcome = some .tests_failed) := by
  have hbe := resolve_body_reaches_tests issue config env fn wpath inst tr cm pt
    brc bfails iv cr hf hw hcl hbr hdi hins hdr hrc hrt hbase hiv hpr hsucc
  have hcls := diff_tests_classify env tr brc bfails
    [DbOp.update { initialAttempt issue config with workspace_path := some wpath }]
    { initialAttempt issue config with workspace_path := some wpath, cost_usd := some cr.cost_usd, num_turns := some cr.num_turns }
    ds run prc pout pfails hhc hds hpost hrun hprc hp5
  constructor
  · intro hbrc
    obtain ⟨a, heq, hst, hoc⟩ := hcls.2.1 hpf hbrc
    have hbody := hbe.trans heq
    exact ⟨a, by simp [resolve_issue, hbody], hst, hoc⟩
  · intro hbrc
    obtain ⟨a, heq, hst, hoc⟩ := hcls.2.2.2 hpf hbrc
    have hbody := hbe.trans heq
    refine ⟨by simp [resolve_issue, hbody], a, ?_, hst, hoc⟩
    simp [resolve_issue, hbody]

/-- Claim C3, witness: a failing baseline exit code yields pr_submitted,
and a clean baseline exit code with an unexplained post-fix failure raises
the fallback tests-failed error. -/
theorem C3_exit_code_fallback_witness :
    (∃ a, (resolve_issue wIssue wConfig envExitCodes false).2 = .ok a ∧
      a.status = .succeeded ∧ a.outcome = some .pr_submitted) ∧
    (resolve_issue wIssue wConfig envNoBaselineSignal false).2 =
      .error (.testsFailed (testsFailedFallbackMsg "bad")) := by
  constructor
  · exact (C3_exit_code_fallback wIssue wConfig envExitCodes "octo/proj" "/ws/proj"
      none ⟨"pytest", "pytest"⟩ none none 1 []
      ⟨loadsOracle agentJsonOk, agentJsonOk, "", 0, false⟩
      ⟨"success", .str "done", .num 2, .num 0, .num 3, .str "", .bool false, agentJsonOk⟩
      "1 file changed" ⟨"worse", "", 2⟩ 2 "worse" []
      rfl rfl rfl rfl rfl rfl rfl rfl rfl rfl rfl rfl rfl rfl rfl rfl rfl
      (by decide) (by decide) rfl).1 (by decide)
  · exact ((C3_exit_code_fallback wIssue wConfig envNoBaselineSignal "octo/proj" "/ws/proj"
      none ⟨"pytest", "pytest"⟩ none none 0 []
      ⟨loadsOracle agentJsonOk, agentJsonOk, "", 0, false⟩
      ⟨"success", .str "done", .num 2, .num 0, .num 3, .str "", .bool false, agentJsonOk⟩
      "1 file changed" ⟨"bad", "", 2⟩ 2 "bad" []
      rfl rfl rfl rfl rfl rfl rfl rfl rfl rfl rfl rfl rfl rfl rfl rfl rfl
      (by decide) (by decide) rfl).2 rfl).1
set_option maxHeartbeats 1000000 in
/-- Helper: evaluation of the Analyzer on the budget-scenario agent reply:
the reply parses to a solvable analysis with confidence 1 and cost 1.5,
which passes the threshold. -/
theorem c4_analysis_eval :
    analyze_issue wIssue ⟨.ok ⟨loadsOracle c4AgentJson, c4AgentJson, "", 0, false⟩⟩ false
      = ([c4Analysis], .ok c4Analysis) := by
  have h1 : analyze_issue wIssue ⟨.ok ⟨loadsOracle c4AgentJson, c4AgentJson, "", 0, false⟩⟩ false
      = (if c4Analysis.passes_threshold = true then ([c4Analysis], Except.ok c4Analysis)
         else ([c4Analysis], .error (.rejected SolvabilityRating.solvable c4Analysis.confidence "No reasoning provided"))) := rfl
  have hthr : c4Analysis.passes_threshold = true := by
    simp [c4Analysis, Analysis.passes_threshold, digitsVal]
    norm_num
  rw [h1, if_pos hthr]

set_option maxHeartbeats 2000000 in
/-- Helper: full evaluation of the budget scenario: a one-dollar session
budget, a first candidate analyzed at cost 1.5 whose resolution fails, and
a second candidate; the run ends budget-exhausted after the first. -/
theorem c4_scenario_eval :
    run_pipeline wConfig 1 [c4Candidate1, c4Candidate2] false = .ok c4Final := by
  have ha : (analyze_issue c4Candidate1.issue c4Candidate1.analyzeEnv false).2
      = Except.ok c4Analysis := congrArg Prod.snd c4_analysis_eval
  have hr : (resolve_issue c4Candidate1.issue wConfig c4Candidate1.resolveEnv false).2
      = Except.ok c4Attempt := rfl
  have e0 : run_pipeline wConfig 1 [c4Candidate1, c4Candidate2] false =
      run_pipeline_loop wConfig 1 false { issues_scanned := 2 } [c4Candidate1, c4Candidate2] := rfl
  rw [e0]
  unfold run_pipeline_loop
  rw [if_neg (show ¬((1:ℚ) - ({ issues_scanned := 2 } : PipelineResult).total_cost_usd ≤ 0) from by norm_num)]
  rw [ha]
  rw [hr]
  show run_pipeline_loop wConfig 1 false c4Mid [c4Candidate2] = Except.ok c4Final
  unfold run_pipeline_loop
  rw [if_pos (show (1:ℚ) - c4Mid.total_cost_usd ≤ 0 from by
    norm_num [c4Mid, c4Cost, show digitsVal ['1'] = 1 from rfl, show digitsVal ['5'] = 5 from rfl])]
  rfl

set_option maxHeartbeats 1000000 in
/-- Claim C4: the Orchestrator checks the remaining session budget before
each candidate; once the accumulated cost reaches or exceeds the budget
(remaining at most zero) it stops at that point, marks the run
budget-exhausted, and analyzes or attempts nothing further (the summary is
returned unchanged apart from the flag); in particular, with a one-dollar
session budget and a first candidate whose analysis costs 1.5, the run
ends budget-exhausted with exactly one candidate analyzed and attempted
and one result entry. -/
theorem C4_budget_gate :
    (∀ (config : AppConfig) (budget : ℚ) (dry : Bool) (summary : PipelineResult)
      (cand : Candidate) (rest : List Candidate),
      budget - summary.total_cost_usd ≤ 0 →
      run_pipeline_loop config budget dry summary (cand :: rest) =
        .ok { summary with budget_exhausted := true }) ∧
    (∃ r, run_pipeline wConfig 1 [c4Candidate1, c4Candidate2] false = .ok r ∧
      r.budget_exhausted = true ∧ r.results.length = 1 ∧
      r.issues_analyzed = 1 ∧ r.issues_attempted = 1) := by
  constructor
  · intro config budget dry summary cand rest h
    conv_lhs => unfold run_pipeline_loop
    rw [if_pos h]
  · exact ⟨c4Final, c4_scenario_eval, rfl, rfl, rfl, rfl⟩

/-- Claim C4, witness: the gate conjunct at a concrete summary whose
accumulated cost equals the budget. -/
theorem C4_budget_gate_witness :
    run_pipeline_loop wConfig 1 false { total_cost_usd := 1 } [c4Candidate2] =
      .ok { total_cost_usd := 1, budget_exhausted := true } :=
  C4_budget_gate.1 wConfig 1 false { total_cost_usd := 1 } c4Candidate2 [] (by simp)

set_option maxHeartbeats 1000000 in
/-- Claim C5, counterexample.  A per-issue exception can propagate out of
the run loop: an agent reply whose rating string is not a member of the
SolvabilityRating enumeration makes the Analyzer raise ValueError
(analyzer.py line 131), which no except clause of orchestrator.py lines
97 to 141 catches, so the whole run aborts on its first candidate. -/
theorem C5_counterexample :
    run_pipeline wConfig 10 [c5BadCandidate] false =
      .error (.valueError "not a valid SolvabilityRating") := by
  have ha : (analyze_issue c5BadCandidate.issue c5BadCandidate.analyzeEnv false).2
      = Except.error (.pyExc (.valueError "not a valid SolvabilityRating")) := rfl
  have e0 : run_pipeline wConfig 10 [c5BadCandidate] false =
      run_pipeline_loop wConfig 10 false { issues_scanned := 1 } [c5BadCandidate] := rfl
  rw [e0]
  unfold run_pipeline_loop
  rw [if_neg (show ¬((10:ℚ) - ({ issues_scanned := 1 } : PipelineResult).total_cost_usd ≤ 0) from by norm_num)]
  rw [ha]

set_option maxHeartbeats 1000000 in
/-- Claim C5, amended.  Per-candidate routing of the Orchestrator with the
budget gate open: the analysis-rejected signal continues without counting a
failure; an agent error from the Analyzer counts a failure and continues; a
budget-exceeded error from the Resolver stops the whole run with the
exhausted flag; a tests-failed error from the Resolver counts a failure and
continues; but an Analyzer exception that is neither of its two caught
signals (such as the ValueError of an unrecognized rating value)
propagates out of the run loop. -/
theorem C5_exception_routing (config : AppConfig) (budget : ℚ) (dry : Bool)
    (summary : PipelineResult) (cand : Candidate) (rest : List Candidate)
    (hgate : ¬ budget - summary.total_cost_usd ≤ 0) :
    (∀ r c m, (analyze_issue cand.issue cand.analyzeEnv dry).2 = .error (.rejected r c m) →
      run_pipeline_loop config budget dry summary (cand :: rest) =
        run_pipeline_loop config budget dry
          { summary with results := summary.results ++
            [{ issue := cand.issue.full_repo ++ "#" ++ toString cand.issue.number, status := "rejected" }] }
          rest) ∧
    (∀ m, (analyze_issue cand.issue cand.analyzeEnv dry).2 = .error (.claudeErr m) →
      run_pipeline_loop config budget dry summary (cand :: rest) =
        run_pipeline_loop config budget dry
          { summary with failures := summary.failures + 1, results := summary.results ++
            [{ issue := cand.issue.full_repo ++ "#" ++ toString cand.issue.number, status := "analysis_failed" }] }
          rest) ∧
    (∀ e, (analyze_issue cand.issue cand.analyzeEnv dry).2 = .error (.pyExc e) →
      run_pipeline_loop config budget dry summary (cand :: rest) = .error e) ∧
    (∀ an c, (analyze_issue cand.issue cand.analyzeEnv dry).2 = .ok an →
      (resolve_issue cand.issue config cand.resolveEnv dry).2 = .error (.budgetExceeded c) →
      run_pipeline_loop config budget dry summary (cand :: rest) =
        .ok { summary with
          issues_analyzed := summary.issues_analyzed + 1,
          total_cost_usd := summary.total_cost_usd + an.cost_usd.getD 0,
          budget_exhausted := true,
          failures := summary.failures + 1,
          results := summary.results ++
            [{ issue := cand.issue.full_repo ++ "#" ++ toString cand.issue.number, status := "budget_exceeded", analysis := some an.rating.toStr }] }) ∧
    (∀ an m, (analyze_issue cand.issue cand.analyzeEnv dry).2 = .ok an →
      (resolve_issue cand.issue config cand.resolveEnv dry).2 = .error (.testsFailed m) →
      run_pipeline_loop config budget dry summary (cand :: rest) =
        run_pipeline_loop config budget dry
          { summary with
            issues_analyzed := summary.issues_analyzed + 1,
            total_cost_usd := summary.total_cost_usd + an.cost_usd.getD 0,
            failures := summary.failures + 1,
            results := summary.results ++
              [{ issue := cand.issue.full_repo ++ "#" ++ toString cand.issue.number, status := "tests_failed", analysis := some an.rating.toStr }] }
          rest) := by
  refine ⟨?_, ?_, ?_, ?_, ?_⟩
  · intro r c m h
    conv_lhs => unfold run_pipeline_loop
    rw [if_neg hgate, h]
  · intro m h
    conv_lhs => unfold run_pipeline_loop
    rw [if_neg hgate, h]
  · intro e h
    conv_lhs => unfold run_pipeline_loop
    rw [if_neg hgate, h]
  · intro an c ha hr
    conv_lhs => unfold run_pipeline_loop
    rw [if_neg hgate, ha, hr]
  · intro an m ha hr
    conv_lhs => unfold run_pipeline_loop
    rw [if_neg hgate, ha, hr]

set_option maxHeartbeats 1000000 in
/-- Claim C5, witness: the tests-failed route at a concrete candidate whose
analysis succeeds at cost 1.5 and whose resolution raises the regression
error. -/
theorem C5_exception_routing_witness :
    run_pipeline_loop wConfig 10 false {} [c5TestsFailedCandidate] =
      run_pipeline_loop wConfig 10 false
        { issues_analyzed := 1, total_cost_usd := (0 : ℚ) + c4Cost, failures := 1,
          results := [{ issue := "octo/proj#5", status := "tests_failed", analysis := some "solvable" }] }
        [] :=
  (C5_exception_routing wConfig 10 false {} c5TestsFailedCandidate []
      (by simp)).2.2.2.2 c4Analysis
    (newRegressionsMsg (setDiff ["tests/b.py::t2"] []))
    (congrArg Prod.snd c4_analysis_eval) rfl

end IssueResolver
